import Mathlib

/-!
HealthWire-api: the appointment subsystem.

A shallow embedding of `src/models/appointment.js`, `src/models/doctor.js`,
`src/models/client.js`, `src/controllers/appointmentController.js` and the
handlers of `src/controllers/doctorController.js` and
`src/controllers/clientController.js` that list appointments or change a
doctor.

* The SQLite database is a record of three tables, each a list of rows in
  storage order.  Request bodies are read at the types the schema declares:
  TEXT columns as strings, INTEGER columns as natural numbers, an absent
  field as `none`.  The path parameter `:id` is read as a number.
* The callback chains of the controllers run to completion one request at a
  time, so a handler is a function from the database and the request to the
  new database and the response.
* The statements on `rendez_vous` and the SELECTs cannot violate a constraint
  of the schema.  `createAppointment`, `updateAppointment`, `updateStatus` and
  `deleteAppointment` are the handlers when the store reports no error, without
  their `if (err)` branches.  `createAppointmentE`, `updateAppointmentE`,
  `updateStatusE` and `deleteAppointmentE` are the same handlers with those
  branches, under an arbitrary pattern of store errors, and agree with the
  former when no error occurs.  `UPDATE doctors` can violate `email UNIQUE`;
  that error and its `500` branch are modelled in `updateDoctor`.
-/

namespace HealthWire

/-! ## Tables (src/config/db.js) -/

/-- A row of table `doctors`. -/
structure Doctor where
  id_doc : Nat
  nom : String
  ville : Option String
  email : String
  imageurl : Option String
  telephone : Option String
  specialite : Option String
  password : String
deriving DecidableEq, Repr

/-- A row of table `clients`. -/
structure Client where
  id_clt : Nat
  nom : String
  ville : Option String
  email : String
  imageurl : Option String
  telephone : Option String
  password : String
deriving DecidableEq, Repr

/-- A row of table `rendez_vous`. -/
structure RendezVous where
  id_rdv : Nat
  status : String
  date : String
  description_rdv : Option String
  id_doc : Nat
  id_clt : Nat
deriving DecidableEq, Repr

/-- The database: the three tables and the AUTOINCREMENT counter of
`rendez_vous` (the largest id ever handed out). -/
structure Db where
  doctors : List Doctor
  clients : List Client
  rendez_vous : List RendezVous
  seq_rdv : Nat
deriving DecidableEq, Repr

/-- The row shape returned by the SELECT of `Appointment.findById` and its
siblings: the appointment joined with its doctor and its client. -/
structure AppointmentRow where
  id_rdv : Nat
  status : String
  date : String
  description_rdv : Option String
  id_doc : Nat
  doctor_name : String
  specialite : Option String
  id_clt : Nat
  client_name : String
deriving DecidableEq, Repr

/-! ## Requests and responses -/

/-- The decoded token `req.user`; `authController` signs tokens with role
`'doctor'` or `'client'` only. -/
structure User where
  id : Nat
  role : String
deriving DecidableEq, Repr

/-- The fields of `req.body` that `updateDoctor` reads. -/
structure DoctorBody where
  nom : Option String
  ville : Option String
  email : Option String
  imageurl : Option String
  telephone : Option String
  specialite : Option String
deriving DecidableEq, Repr

/-- The object `newAppointment` that `createAppointment` hands to
`Appointment.create`. -/
structure NewAppointment where
  status : String
  date : String
  description_rdv : Option String
  id_doc : Nat
  id_clt : Nat
deriving DecidableEq, Repr

/-- The fields of `req.body` the appointment controller reads. -/
structure AppointmentBody where
  status : Option String
  date : Option String
  description_rdv : Option String
  id_doc : Option Nat
  id_clt : Option Nat
deriving DecidableEq, Repr

/-- The JSON bodies the appointment controller sends. -/
inductive Body where
  | message (message : String)
  | appointment (appointment : AppointmentRow)
  | created (message : String) (appointment : Option AppointmentRow)
  | updated (message : String) (id : Nat) (status : String) (date : String)
      (description_rdv : Option String)
  | statusUpdated (message : String) (id : Nat) (status : String)
  | deleted (message : String)
  | slots (doctorId : Nat) (date : String) (availableSlots : List String)
  | appointments (appointments : List AppointmentRow)
  | doctorUpdated (message : String) (id : Nat) (nom : String) (ville : Option String)
      (email : String) (imageurl : Option String) (telephone : Option String)
      (specialite : Option String)
deriving DecidableEq, Repr

/-- An HTTP response: `res.status(code).json(body)`; `res.json` alone is 200. -/
structure Response where
  status : Nat
  body : Body
deriving DecidableEq, Repr

/-! ## JavaScript truthiness -/

/-- Truthiness of a string-valued field: absent and the empty string are falsy. -/
def truthyStr : Option String → Bool
  | none => false
  | some s => s != ""

/-- Truthiness of a number-valued field: absent and zero are falsy. -/
def truthyNat : Option Nat → Bool
  | none => false
  | some n => n != 0

/-- The expression `x || y` for a string-valued `x` and a string `y`. -/
def strOr (x : Option String) (y : String) : String :=
  match x with
  | some s => if s != "" then s else y
  | none => y

/-- The expression `x || y` where both sides may be absent. -/
def strOrOpt (x : Option String) (y : Option String) : Option String :=
  match x with
  | some s => if s != "" then some s else y
  | none => y

/-! ## Dates

The controller hands the request's `date` string to the JavaScript `Date`
object.  How a string is parsed and what the local day of an instant is depend
on the engine and on the server's time zone, so these operations are the
fields of an environment; `toISOString` is the same everywhere and is defined
here.  `utc` is the environment of a server whose local zone is UTC. -/

/-- A `Date` object: its time value in milliseconds since the epoch, `none`
for an Invalid Date (time value `NaN`). -/
abbrev JsDate := Option Int

/-- The zone- and engine-dependent operations of `Date` that the code uses. -/
structure DateEnv where
  /-- The constructor `new Date(s)` for a string. -/
  parse : String → JsDate
  /-- The method `d.setHours(h, m, s, ms)`: the date after the call. -/
  setHours : JsDate → Nat → Nat → Nat → Nat → JsDate
  /-- The method `d.getHours()`, `none` for `NaN`. -/
  getHours : JsDate → Option Nat
  /-- The method `d.getMinutes()`, `none` for `NaN`. -/
  getMinutes : JsDate → Option Nat

/-- Milliseconds per day. -/
def msPerDay : Int := 86400000

/-- The decimal digit `n % 10` as a character. -/
def digitChar (n : Nat) : Char :=
  Char.ofNat (48 + n % 10)

/-- A number as two decimal digits. -/
def pad2 (n : Nat) : List Char :=
  [digitChar (n / 10), digitChar n]

/-- A number as three decimal digits. -/
def pad3 (n : Nat) : List Char :=
  [digitChar (n / 100), digitChar (n / 10), digitChar n]

/-- A number as four decimal digits. -/
def pad4 (n : Nat) : List Char :=
  digitChar (n / 1000) :: pad3 n

/-- A number as six decimal digits. -/
def pad6 (n : Nat) : List Char :=
  digitChar (n / 100000) :: digitChar (n / 10000) :: pad4 n

/-- Year, month (1 to 12) and day of month of a day number counted from
1970-01-01 in the proleptic Gregorian calendar. -/
def civilFromDays (days : Int) : Int × Nat × Nat :=
  let z := days + 719468
  let era := z / 146097
  let doe := (z - era * 146097).toNat
  let yoe := (doe - doe / 1460 + doe / 36524 - doe / 146096) / 365
  let doy := doe - (365 * yoe + yoe / 4 - yoe / 100)
  let mp := (5 * doy + 2) / 153
  let d := doy - (153 * mp + 2) / 5 + 1
  let m := if mp < 10 then mp + 3 else mp - 9
  let y := (yoe : Int) + era * 400
  (if m ≤ 2 then y + 1 else y, m, d)

/-- The day number, counted from 1970-01-01, of a calendar date. -/
def daysFromCivil (y : Int) (m d : Nat) : Int :=
  let y1 := if m ≤ 2 then y - 1 else y
  let era := y1 / 400
  let yoe := (y1 - era * 400).toNat
  let mp := if m ≤ 2 then m + 9 else m - 3
  let doy := (153 * mp + 2) / 5 + d - 1
  let doe := yoe * 365 + yoe / 4 - yoe / 100 + doy
  era * 146097 + (doe : Int) - 719468

/-- The year of `toISOString`: four digits from 0 to 9999, otherwise a sign
and six digits. -/
def isoYear (y : Int) : List Char :=
  if 0 ≤ y ∧ y ≤ 9999 then pad4 y.toNat
  else if y < 0 then '-' :: pad6 (-y).toNat
  else '+' :: pad6 y.toNat

/-- The text `YYYY-MM-DDTHH:mm:ss.sssZ` of a time value. -/
def isoString (t : Int) : String :=
  let days := t / msPerDay
  let ms := (t % msPerDay).toNat
  let ymd := civilFromDays days
  String.mk (isoYear ymd.1 ++ '-' :: pad2 ymd.2.1 ++ '-' :: pad2 ymd.2.2 ++
    'T' :: pad2 (ms / 3600000) ++ ':' :: pad2 (ms / 60000 % 60) ++
    ':' :: pad2 (ms / 1000 % 60) ++ '.' :: pad3 (ms % 1000) ++ ['Z'])

/-- The method `d.toISOString()`: it throws a `RangeError` on an Invalid Date. -/
def toISOString (d : JsDate) : Except String String :=
  match d with
  | none => .error "RangeError: Invalid time value"
  | some t => .ok (isoString t)

/-- Binary comparison `a <= b` of two character sequences, as SQLite's BINARY
collation orders TEXT values. -/
def charsLe : List Char → List Char → Bool
  | [], _ => true
  | _ :: _, [] => false
  | a :: as, b :: bs =>
    if a.toNat < b.toNat then true
    else if b.toNat < a.toNat then false
    else charsLe as bs

/-- The SQL comparison `a <= b` on TEXT values. -/
def textLe (a b : String) : Bool :=
  charsLe a.data b.data

/-- The SQL predicate `x BETWEEN lo AND hi` on TEXT values. -/
def textBetween (x lo hi : String) : Bool :=
  textLe lo x && textLe x hi

/-! ### The environment of a server in UTC -/

/-- The value of a decimal digit character. -/
def digitVal (c : Char) : Option Nat :=
  if 48 ≤ c.toNat ∧ c.toNat ≤ 57 then some (c.toNat - 48) else none

/-- The value of a run of decimal digits. -/
def digitsVal : List Char → Option Nat
  | [] => some 0
  | c :: cs =>
    match digitVal c, digitsVal cs with
    | some d, some r => some (d * 10 ^ cs.length + r)
    | _, _ => none

/-- The number of days of a month. -/
def daysInMonth (y m : Nat) : Nat :=
  if m == 2 then
    if (y % 4 == 0 && y % 100 != 0) || y % 400 == 0 then 29 else 28
  else if m == 4 || m == 6 || m == 9 || m == 11 then 30
  else 31

/-- The date part `YYYY-MM-DD`: the day number. -/
def parseIsoDate (cs : List Char) : Option Int :=
  match cs with
  | [y1, y2, y3, y4, s1, m1, m2, s2, d1, d2] =>
    match digitsVal [y1, y2, y3, y4], digitsVal [m1, m2], digitsVal [d1, d2] with
    | some y, some m, some d =>
      if s1 == '-' && s2 == '-' && 1 ≤ m && m ≤ 12 && 1 ≤ d && d ≤ daysInMonth y m then
        some (daysFromCivil y m d)
      else none
    | _, _, _ => none
  | _ => none

/-- The fields `HH:mm`, in milliseconds. -/
def parseHourMinute (cs : List Char) : Option Nat :=
  match cs with
  | [h1, h2, s1, n1, n2] =>
    match digitsVal [h1, h2], digitsVal [n1, n2] with
    | some h, some n =>
      if s1 == ':' && h ≤ 23 && n ≤ 59 then some (h * 3600000 + n * 60000) else none
    | _, _ => none
  | _ => none

/-- The field `:ss`, in milliseconds. -/
def parseSeconds (cs : List Char) : Option Nat :=
  match cs with
  | [s1, c1, c2] =>
    match digitsVal [c1, c2] with
    | some s => if s1 == ':' && s ≤ 59 then some (s * 1000) else none
    | none => none
  | _ => none

/-- The field `.sss`, in milliseconds. -/
def parseMillis (cs : List Char) : Option Nat :=
  match cs with
  | [s1, f1, f2, f3] =>
    match digitsVal [f1, f2, f3] with
    | some f => if s1 == '.' then some f else none
    | none => none
  | _ => none

/-- The time part `HH:mm`, `HH:mm:ss` or `HH:mm:ss.sss`, in milliseconds. -/
def parseIsoTime (cs : List Char) : Option Nat :=
  match parseHourMinute (cs.take 5) with
  | none => none
  | some hm =>
    if cs.length == 5 then some hm
    else
      match parseSeconds ((cs.drop 5).take 3) with
      | none => none
      | some s =>
        if cs.length == 8 then some (hm + s)
        else
          match parseMillis (cs.drop 8) with
          | none => none
          | some f => some (hm + s + f)

/-- The constructor `new Date(s)` on a server in UTC, for the strings of
ECMAScript's date-time string format of the shapes `YYYY-MM-DD`,
`YYYY-MM-DDTHH:mm`, `YYYY-MM-DDTHH:mm:ss` and `YYYY-MM-DDTHH:mm:ss.sss`, the
last three with or without a final `Z`.  Every other string is outside this
parser and is given an Invalid Date, also those that an engine accepts beyond
that format (a blank instead of `T`, a UTC offset, a day past the end of its
month); `utc` is only evaluated at strings of the shapes above. -/
def utcParse (s : String) : JsDate :=
  let cs := s.data
  match parseIsoDate (cs.take 10) with
  | none => none
  | some day =>
    let rest := cs.drop 10
    match rest with
    | [] => some (day * msPerDay)
    | t :: time =>
      if t == 'T' then
        let time1 := if time.getLast? == some 'Z' then time.dropLast else time
        match parseIsoTime time1 with
        | some ms => some (day * msPerDay + ms)
        | none => none
      else none

/-- The operation `TimeClip`: a time value beyond 8.64e15 ms is `NaN`. -/
def timeClip (t : Int) : JsDate :=
  if -8640000000000000 ≤ t ∧ t ≤ 8640000000000000 then some t else none

/-- The method `setHours(h, m, s, ms)` where local time is UTC. -/
def utcSetHours (d : JsDate) (h m s ms : Nat) : JsDate :=
  match d with
  | none => none
  | some t => timeClip (t / msPerDay * msPerDay + (h * 3600000 + m * 60000 + s * 1000 + ms : Nat))

/-- The method `getHours()` where local time is UTC. -/
def utcGetHours (d : JsDate) : Option Nat :=
  d.map fun t => (t % msPerDay).toNat / 3600000

/-- The method `getMinutes()` where local time is UTC. -/
def utcGetMinutes (d : JsDate) : Option Nat :=
  d.map fun t => (t % msPerDay).toNat / 60000 % 60

/-- The `Date` of a server whose local time zone is UTC. -/
def utc : DateEnv :=
  { parse := utcParse, setHours := utcSetHours,
    getHours := utcGetHours, getMinutes := utcGetMinutes }

/-! ## Models -/

/-- `Doctor.findById`: `SELECT ... FROM doctors WHERE id_doc = ?`, first row. -/
def Doctor.findById (db : Db) (id : Nat) : Option Doctor :=
  db.doctors.find? (fun d => d.id_doc == id)

/-- `Client.findById`: `SELECT ... FROM clients WHERE id_clt = ?`, first row. -/
def Client.findById (db : Db) (id : Nat) : Option Client :=
  db.clients.find? (fun c => c.id_clt == id)

/-- `Doctor.update`: `UPDATE doctors SET nom = ?, ville = ?, email = ?,
imageurl = ?, telephone = ?, specialite = ? WHERE id_doc = ?`, with
`this.changes`.  The statement fails, and writes nothing, when it would give
the row the email of another doctor (`email TEXT UNIQUE`). -/
def Doctor.update (db : Db) (id : Nat) (nom : String) (ville : Option String)
    (email : String) (imageurl telephone specialite : Option String) :
    Except String (Db × Nat) :=
  if (db.doctors.any fun d => d.id_doc == id) &&
      (db.doctors.any fun d => d.id_doc != id && d.email == email) then
    .error "SQLITE_CONSTRAINT: UNIQUE constraint failed: doctors.email"
  else
    .ok ({ db with doctors := db.doctors.map fun d =>
            if d.id_doc == id then
              { d with nom := nom, ville := ville, email := email, imageurl := imageurl,
                       telephone := telephone, specialite := specialite }
            else d },
         (db.doctors.filter fun d => d.id_doc == id).length)

/-- `Doctor.delete`: `DELETE FROM doctors WHERE id_doc = ?`, with
`this.changes`.  Foreign keys are not enforced (no `PRAGMA foreign_keys`), so
the appointments of the doctor stay in `rendez_vous`. -/
def Doctor.delete (db : Db) (id : Nat) : Db × Nat :=
  ({ db with doctors := db.doctors.filter fun d => !(d.id_doc == id) },
   (db.doctors.filter fun d => d.id_doc == id).length)

/-- One row of the join of an appointment with a doctor and a client. -/
def joinRow (r : RendezVous) (d : Doctor) (c : Client) : AppointmentRow :=
  { id_rdv := r.id_rdv, status := r.status, date := r.date,
    description_rdv := r.description_rdv, id_doc := r.id_doc,
    doctor_name := d.nom, specialite := d.specialite,
    id_clt := r.id_clt, client_name := c.nom }

/-- The rows of `rendez_vous r JOIN doctors d ON r.id_doc = d.id_doc
JOIN clients c ON r.id_clt = c.id_clt`. -/
def joined (db : Db) : List AppointmentRow :=
  db.rendez_vous.flatMap fun r =>
    (db.doctors.filter fun d => r.id_doc == d.id_doc).flatMap fun d =>
      (db.clients.filter fun c => r.id_clt == c.id_clt).map fun c => joinRow r d c

namespace Appointment

/-- `Appointment.findAll`. -/
def findAll (db : Db) : List AppointmentRow :=
  joined db

/-- `Appointment.findByDoctorId`: the join `WHERE r.id_doc = ?`. -/
def findByDoctorId (db : Db) (id : Nat) : List AppointmentRow :=
  (joined db).filter fun a => a.id_doc == id

/-- `Appointment.findByClientId`: the join `WHERE r.id_clt = ?`. -/
def findByClientId (db : Db) (id : Nat) : List AppointmentRow :=
  (joined db).filter fun a => a.id_clt == id

/-- `Appointment.findById`: the join `WHERE r.id_rdv = ?`, first row
(`db.get`). -/
def findById (db : Db) (id : Nat) : Option AppointmentRow :=
  (joined db).find? (fun a => a.id_rdv == id)

/-- The rowid an `INSERT INTO rendez_vous` receives under AUTOINCREMENT: one
more than the largest rowid ever used. -/
def lastID (db : Db) : Nat :=
  (db.rendez_vous.foldl (fun m r => max m r.id_rdv) db.seq_rdv) + 1

/-- The `UPDATE rendez_vous SET status = ?, date = ?, description_rdv = ?
WHERE id_rdv = ?` of `Appointment.update`; the second component is
`this.changes`, the number of rows the statement matched. -/
def update (db : Db) (id : Nat) (status date : String)
    (description_rdv : Option String) : Db × Nat :=
  ({ db with rendez_vous := db.rendez_vous.map fun r =>
      if r.id_rdv == id then
        { r with status := status, date := date, description_rdv := description_rdv }
      else r },
   (db.rendez_vous.filter fun r => r.id_rdv == id).length)

/-- The `UPDATE rendez_vous SET status = ? WHERE id_rdv = ?` of
`Appointment.updateStatus`, with `this.changes`. -/
def updateStatus (db : Db) (id : Nat) (status : String) : Db × Nat :=
  ({ db with rendez_vous := db.rendez_vous.map fun r =>
      if r.id_rdv == id then { r with status := status } else r },
   (db.rendez_vous.filter fun r => r.id_rdv == id).length)

/-- The `DELETE FROM rendez_vous WHERE id_rdv = ?` of `Appointment.delete`,
with `this.changes`. -/
def delete (db : Db) (id : Nat) : Db × Nat :=
  ({ db with rendez_vous := db.rendez_vous.filter fun r => !(r.id_rdv == id) },
   (db.rendez_vous.filter fun r => r.id_rdv == id).length)

/-- `Appointment.create`: the INSERT, then `findById(this.lastID)`. -/
def create (db : Db) (status : Option String) (date : String)
    (description_rdv : Option String) (id_doc id_clt : Nat) :
    Db × Option AppointmentRow :=
  let id := lastID db
  let row : RendezVous :=
    { id_rdv := id, status := strOr status "pending", date := date,
      description_rdv := description_rdv, id_doc := id_doc, id_clt := id_clt }
  let db1 : Db := { db with rendez_vous := db.rendez_vous ++ [row], seq_rdv := id }
  (db1, findById db1 id)

/-- `Appointment.findByDoctorAndDate`: the join `WHERE r.id_doc = ? AND
r.date BETWEEN ? AND ?`, the bounds being the ISO strings of the first and
the last millisecond of the local day of `date`.  The column `date` is TEXT,
so the comparison is one of texts.  `toISOString` throws when `date` does not
parse. -/
def findByDoctorAndDate (env : DateEnv) (db : Db) (doctorId : Nat) (date : String) :
    Except String (List AppointmentRow) :=
  let startDate := env.setHours (env.parse date) 0 0 0 0
  let endDate := env.setHours (env.parse date) 23 59 59 999
  match toISOString startDate, toISOString endDate with
  | .ok lo, .ok hi =>
    .ok ((joined db).filter fun a => a.id_doc == doctorId && textBetween a.date lo hi)
  | .error e, _ => .error e
  | _, .error e => .error e

end Appointment

/-! ## Controller (src/controllers/appointmentController.js) -/

/-- The condition guarding the 403 of `getAppointmentById`,
`updateAppointment` and `deleteAppointment`. -/
def notAuthorized (user : User) (appointment : AppointmentRow) : Bool :=
  (user.role == "doctor" && user.id != appointment.id_doc) &&
  (user.role == "client" && user.id != appointment.id_clt)

/-- `appointmentController.getAppointmentById`. -/
def getAppointmentById (db : Db) (user : User) (id : Nat) : Db × Response :=
  match Appointment.findById db id with
  | none => (db, ⟨404, .message "Appointment not found"⟩)
  | some appointment =>
    if notAuthorized user appointment then
      (db, ⟨403, .message "Not authorized to view this appointment"⟩)
    else
      (db, ⟨200, .appointment appointment⟩)

/-- `appointmentController.updateAppointment`. -/
def updateAppointment (db : Db) (user : User) (id : Nat) (body : AppointmentBody) :
    Db × Response :=
  match Appointment.findById db id with
  | none => (db, ⟨404, .message "Appointment not found"⟩)
  | some appointment =>
    if notAuthorized user appointment then
      (db, ⟨403, .message "Not authorized to update this appointment"⟩)
    else
      let status := strOr body.status appointment.status
      let date := strOr body.date appointment.date
      let description_rdv := strOrOpt body.description_rdv appointment.description_rdv
      let result := Appointment.update db id status date description_rdv
      if result.2 == 0 then
        (result.1, ⟨404, .message "Appointment not found or no changes made"⟩)
      else
        (result.1, ⟨200, .updated "Appointment updated successfully" id status date
          description_rdv⟩)

/-- The list `validStatuses` of `updateStatus`. -/
def validStatuses : List String :=
  ["pending", "confirmed", "cancelled", "completed"]

/-- The condition guarding the 403 of `updateStatus`. -/
def statusNotAuthorized (user : User) (appointment : AppointmentRow) (status : String) :
    Bool :=
  ((status == "confirmed" || status == "completed") && user.role != "doctor") ||
  (user.role == "doctor" && user.id != appointment.id_doc) ||
  (user.role == "client" && user.id != appointment.id_clt)

/-- `appointmentController.updateStatus`. -/
def updateStatus (db : Db) (user : User) (id : Nat) (body : AppointmentBody) :
    Db × Response :=
  if !truthyStr body.status then
    (db, ⟨400, .message "Status is required"⟩)
  else
    let status := strOr body.status ""
    if !validStatuses.contains status then
      (db, ⟨400, .message "Invalid status value"⟩)
    else
      match Appointment.findById db id with
      | none => (db, ⟨404, .message "Appointment not found"⟩)
      | some appointment =>
        if statusNotAuthorized user appointment status then
          (db, ⟨403, .message "Not authorized to update this appointment status"⟩)
        else
          let result := Appointment.updateStatus db id status
          if result.2 == 0 then
            (result.1, ⟨404, .message "Appointment not found or no changes made"⟩)
          else
            (result.1, ⟨200, .statusUpdated "Appointment status updated successfully" id
              status⟩)

/-- `appointmentController.deleteAppointment`. -/
def deleteAppointment (db : Db) (user : User) (id : Nat) : Db × Response :=
  match Appointment.findById db id with
  | none => (db, ⟨404, .message "Appointment not found"⟩)
  | some appointment =>
    if notAuthorized user appointment then
      (db, ⟨403, .message "Not authorized to delete this appointment"⟩)
    else
      let result := Appointment.delete db id
      if result.2 == 0 then
        (result.1, ⟨404, .message "Appointment not found"⟩)
      else
        (result.1, ⟨200, .deleted "Appointment deleted successfully"⟩)

/-- `appointmentController.createAppointment`.  An exception thrown inside the
callback chain (the `RangeError` of `findByDoctorAndDate`) is the `error`
result: no response is sent and nothing is written. -/
def createAppointment (env : DateEnv) (db : Db) (user : User) (body : AppointmentBody) :
    Except String (Db × Response) :=
  let id_clt := if user.role == "client" then some user.id else body.id_clt
  if !truthyStr body.date || !truthyNat body.id_doc || !truthyNat id_clt then
    .ok (db, ⟨400, .message "Please provide date, doctor ID, and client ID"⟩)
  else
    let date := strOr body.date ""
    let id_doc := body.id_doc.getD 0
    let id_clt := id_clt.getD 0
    match Doctor.findById db id_doc with
    | none => .ok (db, ⟨404, .message "Doctor not found"⟩)
    | some _ =>
      match Client.findById db id_clt with
      | none => .ok (db, ⟨404, .message "Client not found"⟩)
      | some _ =>
        match Appointment.findByDoctorAndDate env db id_doc date with
        | .error e => .error e
        | .ok existingAppointments =>
          if existingAppointments.length > 0 then
            .ok (db, ⟨400, .message "This time slot is already booked"⟩)
          else
            let result := Appointment.create db (some "pending") date body.description_rdv
              id_doc id_clt
            .ok (result.1, ⟨201, .created "Appointment created successfully" result.2⟩)

/-! ## Availability (getAvailableTimeSlots) -/

/-- The decimal digits of `n`, most significant first; `fuel` bounds the
number of digits. -/
def decimalDigits : Nat → Nat → List Char
  | 0, _ => []
  | fuel + 1, n =>
    if n < 10 then [digitChar n] else decimalDigits fuel (n / 10) ++ [digitChar n]

/-- The method `toString()` of the number that `getHours()` or `getMinutes()`
returns: the decimal digits, `NaN` for `NaN`. -/
def numberToString : Option Nat → List Char
  | none => ['N', 'a', 'N']
  | some n => decimalDigits (n + 1) n

/-- The method `s.padStart(targetLength, c)` for a one-character pad. -/
def padStart (s : List Char) (targetLength : Nat) (c : Char) : List Char :=
  List.replicate (targetLength - s.length) c ++ s

/-- The list `businessHours` of `getAvailableTimeSlots`. -/
def businessHours : List String :=
  ["09:00", "09:30", "10:00", "10:30", "11:00", "11:30",
   "12:00", "12:30", "13:00", "13:30", "14:00", "14:30",
   "15:00", "15:30", "16:00", "16:30", "17:00"]

/-- The booked slot of an appointment: `getHours()` and `getMinutes()` of
`new Date(appointment.date)`, each as a string padded to two characters, with
a colon between them. -/
def bookedSlot (env : DateEnv) (appointment : AppointmentRow) : String :=
  let appointmentTime := env.parse appointment.date
  String.mk (padStart (numberToString (env.getHours appointmentTime)) 2 '0' ++
    ':' :: padStart (numberToString (env.getMinutes appointmentTime)) 2 '0')

/-- The expression `new Date().toISOString().split('T')[0]` at the instant
`now`. -/
def today (now : Int) : String :=
  String.mk ((isoString now).data.takeWhile fun c => c != 'T')

/-- The value `targetDate`: the query's date, or today's date when the query
has none. -/
def targetDate (now : Int) (date : Option String) : String :=
  strOr date (today now)

/-- `appointmentController.getAvailableTimeSlots`, at the instant `now`.  The
handler writes nothing; a `RangeError` thrown by `findByDoctorAndDate` is the
`error` result, for which no response is sent. -/
def getAvailableTimeSlots (env : DateEnv) (now : Int) (db : Db) (doctorId : Nat)
    (date : Option String) : Except String Response :=
  match Doctor.findById db doctorId with
  | none => .ok ⟨404, .message "Doctor not found"⟩
  | some _ =>
    match Appointment.findByDoctorAndDate env db doctorId (targetDate now date) with
    | .error e => .error e
    | .ok appointments =>
      let bookedSlots := appointments.map (bookedSlot env)
      let availableSlots := businessHours.filter fun slot => !bookedSlots.contains slot
      .ok ⟨200, .slots doctorId (targetDate now date) availableSlots⟩

/-- The slots that `getAvailableTimeSlots` computes from the appointments of
the day: `businessHours` without the booked slots. -/
def availableSlots (env : DateEnv) (appointments : List AppointmentRow) : List String :=
  let bookedSlots := appointments.map (bookedSlot env)
  businessHours.filter fun slot => !bookedSlots.contains slot

/-! ## Listing (appointmentController, doctorController, clientController) -/

/-- `appointmentController.getAllAppointments`, behind the middleware `auth`
alone. -/
def getAllAppointments (db : Db) (_user : User) : Response :=
  ⟨200, .appointments (Appointment.findAll db)⟩

/-- `doctorController.getDoctorAppointments`. -/
def getDoctorAppointments (db : Db) (user : User) (id : Nat) : Response :=
  match Doctor.findById db id with
  | none => ⟨404, .message "Doctor not found"⟩
  | some _ =>
    if user.role == "doctor" && user.id != id then
      ⟨403, .message "Not authorized to view these appointments"⟩
    else
      ⟨200, .appointments (Appointment.findByDoctorId db id)⟩

/-- `clientController.getClientAppointments`. -/
def getClientAppointments (db : Db) (user : User) (id : Nat) : Response :=
  match Client.findById db id with
  | none => ⟨404, .message "Client not found"⟩
  | some _ =>
    if user.role == "client" && user.id != id then
      ⟨403, .message "Not authorized to view these appointments"⟩
    else
      ⟨200, .appointments (Appointment.findByClientId db id)⟩

/-! ## Changing a doctor (doctorController) -/

/-- `doctorController.updateDoctor`. -/
def updateDoctor (db : Db) (user : User) (id : Nat) (body : DoctorBody) : Db × Response :=
  match Doctor.findById db id with
  | none => (db, ⟨404, .message "Doctor not found"⟩)
  | some doctor =>
    if user.role == "doctor" && user.id != id then
      (db, ⟨403, .message "Not authorized to update this doctor"⟩)
    else
      let nom := strOr body.nom doctor.nom
      let ville := strOrOpt body.ville doctor.ville
      let email := strOr body.email doctor.email
      let imageurl := strOrOpt body.imageurl doctor.imageurl
      let telephone := strOrOpt body.telephone doctor.telephone
      let specialite := strOrOpt body.specialite doctor.specialite
      match Doctor.update db id nom ville email imageurl telephone specialite with
      | .error e => (db, ⟨500, .message e⟩)
      | .ok result =>
        if result.2 == 0 then
          (result.1, ⟨404, .message "Doctor not found or no changes made"⟩)
        else
          (result.1, ⟨200, .doctorUpdated "Doctor updated successfully" id nom ville email
            imageurl telephone specialite⟩)

/-- `doctorController.deleteDoctor`. -/
def deleteDoctor (db : Db) (user : User) (id : Nat) : Db × Response :=
  match Doctor.findById db id with
  | none => (db, ⟨404, .message "Doctor not found"⟩)
  | some _ =>
    if user.role == "doctor" && user.id != id then
      (db, ⟨403, .message "Not authorized to delete this doctor"⟩)
    else
      let result := Doctor.delete db id
      if result.2 == 0 then
        (result.1, ⟨404, .message "Doctor not found"⟩)
      else
        (result.1, ⟨200, .deleted "Doctor deleted successfully"⟩)

/-! ## The two database phases of createAppointment

Between the callback of the conflict query and the INSERT the handler holds
no lock and no transaction is open, so the callbacks of another request may
run in between.  The two definitions below cut `createAppointment` at that
point. -/

/-- `createAppointment` up to the callback of `findByDoctorAndDate`: the
response already sent, or the `newAppointment` about to be inserted. -/
def createAppointmentCheck (env : DateEnv) (db : Db) (user : User) (body : AppointmentBody) :
    Except String (Response ⊕ NewAppointment) :=
  let id_clt := if user.role == "client" then some user.id else body.id_clt
  if !truthyStr body.date || !truthyNat body.id_doc || !truthyNat id_clt then
    .ok (.inl ⟨400, .message "Please provide date, doctor ID, and client ID"⟩)
  else
    let date := strOr body.date ""
    let id_doc := body.id_doc.getD 0
    let id_clt := id_clt.getD 0
    match Doctor.findById db id_doc with
    | none => .ok (.inl ⟨404, .message "Doctor not found"⟩)
    | some _ =>
      match Client.findById db id_clt with
      | none => .ok (.inl ⟨404, .message "Client not found"⟩)
      | some _ =>
        match Appointment.findByDoctorAndDate env db id_doc date with
        | .error e => .error e
        | .ok existingAppointments =>
          if existingAppointments.length > 0 then
            .ok (.inl ⟨400, .message "This time slot is already booked"⟩)
          else
            .ok (.inr { status := "pending", date := date,
                        description_rdv := body.description_rdv,
                        id_doc := id_doc, id_clt := id_clt })

/-- The rest of `createAppointment`: `Appointment.create(newAppointment)` on
the database as it is when the INSERT runs, and the 201 response. -/
def createAppointmentInsert (db : Db) (newAppointment : NewAppointment) : Db × Response :=
  let result := Appointment.create db (some newAppointment.status) newAppointment.date
    newAppointment.description_rdv newAppointment.id_doc newAppointment.id_clt
  (result.1, ⟨201, .created "Appointment created successfully" result.2⟩)

/-! ## The handlers with the store's errors

Any call to the database may hand an error to its callback (a busy or locked
database, an input-output error).  The handlers answer it with
`res.status(500).json({ message: err.message })`.  A statement that fails
writes nothing. -/

/-- The errors the store reports to one request: `errs n` is the message of
the error of the request's `n`-th database call, counted from 0 along its
callback chain, and `none` when that call succeeds. -/
abbrev StoreErrors := Nat → Option String

/-- The store reports no error. -/
def noErrors : StoreErrors :=
  fun _ => none

/-- `appointmentController.createAppointment` with its `if (err)` branches.
The database calls are, in order: `Doctor.findById` (0), `Client.findById`
(1), the SELECT of `findByDoctorAndDate` (2), the INSERT of
`Appointment.create` (3) and its read-back `findById(this.lastID)` (4), whose
error reaches the handler after the INSERT has been carried out. -/
def createAppointmentE (env : DateEnv) (errs : StoreErrors) (db : Db) (user : User)
    (body : AppointmentBody) : Except String (Db × Response) :=
  let id_clt := if user.role == "client" then some user.id else body.id_clt
  if !truthyStr body.date || !truthyNat body.id_doc || !truthyNat id_clt then
    .ok (db, ⟨400, .message "Please provide date, doctor ID, and client ID"⟩)
  else
    let date := strOr body.date ""
    let id_doc := body.id_doc.getD 0
    let id_clt := id_clt.getD 0
    match errs 0 with
    | some e => .ok (db, ⟨500, .message e⟩)
    | none =>
      match Doctor.findById db id_doc with
      | none => .ok (db, ⟨404, .message "Doctor not found"⟩)
      | some _ =>
        match errs 1 with
        | some e => .ok (db, ⟨500, .message e⟩)
        | none =>
          match Client.findById db id_clt with
          | none => .ok (db, ⟨404, .message "Client not found"⟩)
          | some _ =>
            match Appointment.findByDoctorAndDate env db id_doc date with
            | .error e => .error e
            | .ok existingAppointments =>
              match errs 2 with
              | some e => .ok (db, ⟨500, .message e⟩)
              | none =>
                if existingAppointments.length > 0 then
                  .ok (db, ⟨400, .message "This time slot is already booked"⟩)
                else
                  match errs 3 with
                  | some e => .ok (db, ⟨500, .message e⟩)
                  | none =>
                    let result := Appointment.create db (some "pending") date
                      body.description_rdv id_doc id_clt
                    match errs 4 with
                    | some e => .ok (result.1, ⟨500, .message e⟩)
                    | none =>
                      .ok (result.1,
                        ⟨201, .created "Appointment created successfully" result.2⟩)

/-- `appointmentController.updateAppointment` with its `if (err)` branches:
`Appointment.findById` is call 0 and the UPDATE call 1. -/
def updateAppointmentE (errs : StoreErrors) (db : Db) (user : User) (id : Nat)
    (body : AppointmentBody) : Db × Response :=
  match errs 0 with
  | some e => (db, ⟨500, .message e⟩)
  | none =>
    match Appointment.findById db id with
    | none => (db, ⟨404, .message "Appointment not found"⟩)
    | some appointment =>
      if notAuthorized user appointment then
        (db, ⟨403, .message "Not authorized to update this appointment"⟩)
      else
        let status := strOr body.status appointment.status
        let date := strOr body.date appointment.date
        let description_rdv := strOrOpt body.description_rdv appointment.description_rdv
        match errs 1 with
        | some e => (db, ⟨500, .message e⟩)
        | none =>
          let result := Appointment.update db id status date description_rdv
          if result.2 == 0 then
            (result.1, ⟨404, .message "Appointment not found or no changes made"⟩)
          else
            (result.1, ⟨200, .updated "Appointment updated successfully" id status date
              description_rdv⟩)

/-- `appointmentController.updateStatus` with its `if (err)` branches:
`Appointment.findById` is call 0 and the UPDATE call 1. -/
def updateStatusE (errs : StoreErrors) (db : Db) (user : User) (id : Nat)
    (body : AppointmentBody) : Db × Response :=
  if !truthyStr body.status then
    (db, ⟨400, .message "Status is required"⟩)
  else
    let status := strOr body.status ""
    if !validStatuses.contains status then
      (db, ⟨400, .message "Invalid status value"⟩)
    else
      match errs 0 with
      | some e => (db, ⟨500, .message e⟩)
      | none =>
        match Appointment.findById db id with
        | none => (db, ⟨404, .message "Appointment not found"⟩)
        | some appointment =>
          if statusNotAuthorized user appointment status then
            (db, ⟨403, .message "Not authorized to update this appointment status"⟩)
          else
            match errs 1 with
            | some e => (db, ⟨500, .message e⟩)
            | none =>
              let result := Appointment.updateStatus db id status
              if result.2 == 0 then
                (result.1, ⟨404, .message "Appointment not found or no changes made"⟩)
              else
                (result.1, ⟨200, .statusUpdated "Appointment status updated successfully" id
                  status⟩)

/-- `appointmentController.deleteAppointment` with its `if (err)` branches:
`Appointment.findById` is call 0 and the DELETE call 1. -/
def deleteAppointmentE (errs : StoreErrors) (db : Db) (user : User) (id : Nat) :
    Db × Response :=
  match errs 0 with
  | some e => (db, ⟨500, .message e⟩)
  | none =>
    match Appointment.findById db id with
    | none => (db, ⟨404, .message "Appointment not found"⟩)
    | some appointment =>
      if notAuthorized user appointment then
        (db, ⟨403, .message "Not authorized to delete this appointment"⟩)
      else
        match errs 1 with
        | some e => (db, ⟨500, .message e⟩)
        | none =>
          let result := Appointment.delete db id
          if result.2 == 0 then
            (result.1, ⟨404, .message "Appointment not found"⟩)
          else
            (result.1, ⟨200, .deleted "Appointment deleted successfully"⟩)

/-! ## Request sequences -/

/-- The four mutating requests of the appointment routes. -/
inductive Request where
  | createAppointment (user : User) (body : AppointmentBody)
  | updateAppointment (user : User) (id : Nat) (body : AppointmentBody)
  | updateStatus (user : User) (id : Nat) (body : AppointmentBody)
  | deleteAppointment (user : User) (id : Nat)
deriving DecidableEq, Repr

/-- The database after one request; a request whose handler throws writes
nothing. -/
def handle (env : DateEnv) (db : Db) : Request → Db
  | .createAppointment user body =>
    match createAppointment env db user body with
    | .ok r => r.1
    | .error _ => db
  | .updateAppointment user id body => (updateAppointment db user id body).1
  | .updateStatus user id body => (updateStatus db user id body).1
  | .deleteAppointment user id => (deleteAppointment db user id).1

/-- The database after a sequence of requests, served one after the other. -/
def run (env : DateEnv) (db : Db) (requests : List Request) : Db :=
  requests.foldl (handle env) db

/-! ## Vocabulary of the properties -/

/-- The principal is the appointment's doctor: role doctor and the doctor's id. -/
def isDoctorOf (user : User) (a : AppointmentRow) : Prop :=
  user.role = "doctor" ∧ user.id = a.id_doc

/-- The principal is the appointment's client: role client and the client's id. -/
def isClientOf (user : User) (a : AppointmentRow) : Prop :=
  user.role = "client" ∧ user.id = a.id_clt

instance (user : User) (a : AppointmentRow) : Decidable (isDoctorOf user a) :=
  inferInstanceAs (Decidable (_ ∧ _))

instance (user : User) (a : AppointmentRow) : Decidable (isClientOf user a) :=
  inferInstanceAs (Decidable (_ ∧ _))

/-- The client a `createAppointment` request books for: the principal when its
role is client, otherwise the body's `id_clt`. -/
def requester (user : User) (body : AppointmentBody) : Option Nat :=
  if user.role == "client" then some user.id else body.id_clt

/-- The record `createAppointment` inserts. -/
def newRecord (db : Db) (date : String) (description_rdv : Option String)
    (id_doc id_clt : Nat) : RendezVous :=
  { id_rdv := Appointment.lastID db, status := "pending", date := date,
    description_rdv := description_rdv, id_doc := id_doc, id_clt := id_clt }

/-- The label `HH:MM` of a time of day, each field written with two digits. -/
def hhmm (h m : Nat) : String :=
  String.mk (pad2 h ++ ':' :: pad2 m)

/-- The local time of day of an appointment as a label `HH:MM`; an appointment
whose date does not parse has none. -/
def timeLabel (env : DateEnv) (a : AppointmentRow) : Option String :=
  match env.getHours (env.parse a.date), env.getMinutes (env.parse a.date) with
  | some h, some m => some (hhmm h m)
  | _, _ => none

/-- Every appointment's status is one of the four status names. -/
def StatusesValid (db : Db) : Prop :=
  ∀ r ∈ db.rendez_vous, r.status ∈ validStatuses

instance (db : Db) : Decidable (StatusesValid db) :=
  inferInstanceAs (Decidable (∀ r ∈ db.rendez_vous, _))

/-- The PRIMARY KEY constraints of the schema: no two rows of a table have the
same id. -/
def PrimaryKeys (db : Db) : Prop :=
  (db.doctors.map fun d => d.id_doc).Nodup ∧
  (db.clients.map fun c => c.id_clt).Nodup ∧
  (db.rendez_vous.map fun r => r.id_rdv).Nodup

instance (db : Db) : Decidable (PrimaryKeys db) :=
  inferInstanceAs (Decidable (_ ∧ _ ∧ _))

/-- No two distinct appointments that are not cancelled have the same doctor
and the same date. -/
def NoDoubleBooking (db : Db) : Prop :=
  ∀ r ∈ db.rendez_vous, ∀ r' ∈ db.rendez_vous,
    r.id_rdv ≠ r'.id_rdv → r.status ≠ "cancelled" → r'.status ≠ "cancelled" →
    r.id_doc = r'.id_doc → r.date ≠ r'.date

instance (db : Db) : Decidable (NoDoubleBooking db) :=
  inferInstanceAs (Decidable (∀ r ∈ db.rendez_vous, ∀ r' ∈ db.rendez_vous, _))

/-- The status graph as the specification words it: `pending -> confirmed`,
`pending -> cancelled`, `confirmed -> cancelled`, `confirmed -> completed`. -/
def specEdge (current requested : String) : Prop :=
  (current = "pending" ∧ requested = "confirmed") ∨
  (current = "pending" ∧ requested = "cancelled") ∨
  (current = "confirmed" ∧ requested = "cancelled") ∨
  (current = "confirmed" ∧ requested = "completed")

instance (current requested : String) : Decidable (specEdge current requested) :=
  inferInstanceAs (Decidable (_ ∨ _ ∨ _ ∨ _))

/-- The authorization per edge as the specification words it: the doctor for
`confirmed` and `completed`, the doctor or the client for `cancelled`. -/
def specAuthorized (user : User) (a : AppointmentRow) (requested : String) : Prop :=
  ((requested = "confirmed" ∨ requested = "completed") ∧ isDoctorOf user a) ∨
  (requested = "cancelled" ∧ (isDoctorOf user a ∨ isClientOf user a))

instance (user : User) (a : AppointmentRow) (requested : String) :
    Decidable (specAuthorized user a requested) :=
  inferInstanceAs (Decidable (_ ∨ _))

/-- The row `a` with its status replaced when its id is `id`. -/
def withStatus (id : Nat) (status : String) (a : AppointmentRow) : AppointmentRow :=
  if a.id_rdv == id then { a with status := status } else a

/-- The row `a` with status, date and description replaced when its id is `id`. -/
def withUpdate (id : Nat) (status date : String) (description_rdv : Option String)
    (a : AppointmentRow) : AppointmentRow :=
  if a.id_rdv == id then
    { a with status := status, date := date, description_rdv := description_rdv }
  else a

/-- A request body that carries a status only. -/
def statusBody (status : String) : AppointmentBody :=
  { status := some status, date := none, description_rdv := none,
    id_doc := none, id_clt := none }

/-- A request body that carries a date only. -/
def dateBody (date : String) : AppointmentBody :=
  { status := none, date := some date, description_rdv := none,
    id_doc := none, id_clt := none }

/-- A request body of `createAppointment` that also carries a status and an
`id_clt`. -/
def bookingBodyWithStatus : AppointmentBody :=
  { status := some "completed", date := some "2024-03-10T13:00:00Z",
    description_rdv := some "checkup", id_doc := some 1, id_clt := some 4 }

/-- A request body of `createAppointment` by a client. -/
def bookingBody (id_doc : Nat) (date : String) : AppointmentBody :=
  { status := none, date := some date, description_rdv := some "checkup",
    id_doc := some id_doc, id_clt := none }

/-! ## Sample data -/

/-- Doctor 1. -/
def doctor1 : Doctor :=
  { id_doc := 1, nom := "Dr. Othmane", ville := some "Casablanca",
    email := "othmane@example.com", imageurl := none, telephone := none,
    specialite := some "Heart Specialist", password := "hash" }

/-- Doctor 3, who has no appointment. -/
def doctor3 : Doctor :=
  { id_doc := 3, nom := "Dr. Soufiane RAHIMI", ville := some "Marrakech",
    email := "soufiane@example.com", imageurl := none, telephone := none,
    specialite := some "General Medicine", password := "hash" }

/-- Client 2. -/
def client2 : Client :=
  { id_clt := 2, nom := "Ziad EL BAROUDI", ville := some "Casablanca",
    email := "ziad@example.com", imageurl := none, telephone := none, password := "hash" }

/-- Client 4, who has no appointment. -/
def client4 : Client :=
  { id_clt := 4, nom := "Simo KERROUMI", ville := some "Rabat",
    email := "simo@example.com", imageurl := none, telephone := none, password := "hash" }

/-- A database with two doctors, two clients and no appointment. -/
def dbNoAppointments : Db :=
  { doctors := [doctor1, doctor3], clients := [client2, client4],
    rendez_vous := [], seq_rdv := 0 }

/-- The database with one appointment, of doctor 1 with client 2, in the given
status and at the given date. -/
def dbOne (status date : String) : Db :=
  { dbNoAppointments with
    rendez_vous := [{ id_rdv := 1, status := status, date := date,
                      description_rdv := some "checkup", id_doc := 1, id_clt := 2 }],
    seq_rdv := 1 }

/-- The joined row of the appointment of `dbOne`. -/
def rowOne (status date : String) : AppointmentRow :=
  { id_rdv := 1, status := status, date := date, description_rdv := some "checkup",
    id_doc := 1, doctor_name := "Dr. Othmane", specialite := some "Heart Specialist",
    id_clt := 2, client_name := "Ziad EL BAROUDI" }

/-- A database with doctor 1, client 2 and no appointment. -/
def dbPair : Db :=
  { doctors := [doctor1], clients := [client2], rendez_vous := [], seq_rdv := 0 }

/-- The database `dbPair` with one appointment, of doctor 1 with client 2 at
`2024-03-10T13:00:00Z`, in the given status. -/
def dbPairOne (status : String) : Db :=
  { dbPair with
    rendez_vous := [{ id_rdv := 1, status := status, date := "2024-03-10T13:00:00Z",
                      description_rdv := some "checkup", id_doc := 1, id_clt := 2 }],
    seq_rdv := 1 }

/-- The request body of the end-to-end scenario. -/
def scenarioBody : AppointmentBody :=
  { status := none, date := some "2024-03-10T13:00:00Z", description_rdv := some "checkup",
    id_doc := some 1, id_clt := some 2 }

/-- A body of `updateDoctor` that carries a name only. -/
def nameBody (nom : String) : DoctorBody :=
  { nom := some nom, ville := none, email := none, imageurl := none, telephone := none,
    specialite := none }

/-- The store's errors of a request whose read-back after the INSERT, call 4,
fails and whose other calls succeed. -/
def readBackFails : StoreErrors :=
  fun n => if n == 4 then some "SQLITE_BUSY: database is locked" else none

/-- The database `dbOne` after doctor 1 deleted their account: appointment 1
is still in `rendez_vous`, its doctor is no longer in `doctors`. -/
def dbOrphan (status date : String) : Db :=
  { dbOne status date with doctors := [doctor3] }

/-! ## Lemmas on the store -/

theorem withStatus_id_rdv (id : Nat) (status : String) (a : AppointmentRow) :
    (withStatus id status a).id_rdv = a.id_rdv := by
  unfold withStatus
  split <;> rfl

theorem joined_updateStatus (db : Db) (id : Nat) (status : String) :
    joined (Appointment.updateStatus db id status).1 = (joined db).map (withStatus id status) := by
  simp only [joined, Appointment.updateStatus, List.flatMap_map, List.map_flatMap]
  congr 1
  funext r
  by_cases h : r.id_rdv = id
  · simp [h, joinRow, withStatus, List.map_flatMap, Function.comp_def]
  · simp [h, joinRow, withStatus, List.map_flatMap, Function.comp_def]

theorem findById_updateStatus (db : Db) (id i : Nat) (status : String) :
    Appointment.findById (Appointment.updateStatus db id status).1 i =
      (Appointment.findById db i).map (withStatus id status) := by
  simp only [Appointment.findById, joined_updateStatus, List.find?_map]
  have hp : ((fun a : AppointmentRow => a.id_rdv == i) ∘ withStatus id status) =
      fun a => a.id_rdv == i := by
    funext a
    simp [withStatus_id_rdv]
  rw [hp]

theorem changes_pos_of_findById {db : Db} {id : Nat} {a : AppointmentRow}
    (h : Appointment.findById db id = some a) :
    (db.rendez_vous.filter fun r => r.id_rdv == id).length ≠ 0 := by
  have hmem := List.mem_of_find?_eq_some h
  have hid := List.find?_some h
  simp only [joined, List.mem_flatMap, List.mem_map, List.mem_filter] at hmem
  obtain ⟨r, hr, d, _, c, _, rfl⟩ := hmem
  have : r ∈ db.rendez_vous.filter fun r => r.id_rdv == id := by
    simp only [List.mem_filter]
    exact ⟨hr, by simpa [joinRow] using hid⟩
  intro h0
  rw [List.length_eq_zero] at h0
  rw [h0] at this
  cases this

theorem withUpdate_id_rdv (id : Nat) (status date : String) (description_rdv : Option String)
    (a : AppointmentRow) :
    (withUpdate id status date description_rdv a).id_rdv = a.id_rdv := by
  unfold withUpdate
  split <;> rfl

theorem joined_update (db : Db) (id : Nat) (status date : String)
    (description_rdv : Option String) :
    joined (Appointment.update db id status date description_rdv).1 =
      (joined db).map (withUpdate id status date description_rdv) := by
  simp only [joined, Appointment.update, List.flatMap_map, List.map_flatMap]
  congr 1
  funext r
  by_cases h : r.id_rdv = id
  · simp [h, joinRow, withUpdate, List.map_flatMap, Function.comp_def]
  · simp [h, joinRow, withUpdate, List.map_flatMap, Function.comp_def]

theorem findById_update (db : Db) (id i : Nat) (status date : String)
    (description_rdv : Option String) :
    Appointment.findById (Appointment.update db id status date description_rdv).1 i =
      (Appointment.findById db i).map (withUpdate id status date description_rdv) := by
  simp only [Appointment.findById, joined_update, List.find?_map]
  have hp : ((fun a : AppointmentRow => a.id_rdv == i) ∘
      withUpdate id status date description_rdv) = fun a => a.id_rdv == i := by
    funext a
    simp [withUpdate_id_rdv]
  rw [hp]

theorem row_of_findById {db : Db} {id : Nat} {a : AppointmentRow}
    (h : Appointment.findById db id = some a) :
    ∃ r ∈ db.rendez_vous, r.id_rdv = id ∧ r.status = a.status := by
  have hmem := List.mem_of_find?_eq_some h
  have hid := List.find?_some h
  simp only [joined, List.mem_flatMap, List.mem_map, List.mem_filter] at hmem
  obtain ⟨r, hr, d, _, c, _, rfl⟩ := hmem
  exact ⟨r, hr, by simpa [joinRow] using hid, rfl⟩

theorem updateStatus_same_status {db : Db} {id : Nat} {a : AppointmentRow}
    (hk : PrimaryKeys db) (ha : Appointment.findById db id = some a) :
    (Appointment.updateStatus db id a.status).1 = db := by
  obtain ⟨r0, hr0, hid0, hst0⟩ := row_of_findById ha
  have hinj := List.inj_on_of_nodup_map hk.2.2
  have hmap : (db.rendez_vous.map fun r =>
      if r.id_rdv == id then { r with status := a.status } else r) = db.rendez_vous := by
    conv_rhs => rw [← List.map_id db.rendez_vous]
    apply List.map_congr_left
    intro r hr
    by_cases h : r.id_rdv = id
    · have : r = r0 := hinj hr hr0 (by rw [h, hid0])
      subst this
      cases r
      simp_all
    · simp [h]
  simp only [Appointment.updateStatus, hmap]

theorem notAuthorized_eq_false (user : User) (a : AppointmentRow) :
    notAuthorized user a = false := by
  unfold notAuthorized
  by_cases hd : user.role = "doctor"
  · have hc : ¬ user.role = "client" := by rw [hd]; decide
    simp [hc]
  · simp [hd]

theorem ne_empty_of_valid {s : String} (hs : s ∈ validStatuses) : s ≠ "" := by
  intro h
  subst h
  revert hs
  decide

theorem updateStatus_of_found {db : Db} {user : User} {id : Nat} {a : AppointmentRow}
    {s : String} {body : AppointmentBody} (hb : body.status = some s)
    (hs : s ∈ validStatuses) (ha : Appointment.findById db id = some a) :
    updateStatus db user id body =
      if statusNotAuthorized user a s then
        (db, ⟨403, .message "Not authorized to update this appointment status"⟩)
      else
        ((Appointment.updateStatus db id s).1,
          ⟨200, .statusUpdated "Appointment status updated successfully" id s⟩) := by
  have hne := ne_empty_of_valid hs
  have hpos := changes_pos_of_findById ha
  have hc : validStatuses.contains s = true := by simpa using hs
  unfold updateStatus
  simp only [hb, truthyStr, strOr, ha]
  have h2 : ¬ (Appointment.updateStatus db id s).2 = 0 := by
    simpa [Appointment.updateStatus] using hpos
  simp [hne, hs, h2]

theorem statusNotAuthorized_eq_false_iff {user : User} {a : AppointmentRow} {s : String}
    (hrole : user.role = "doctor" ∨ user.role = "client") :
    statusNotAuthorized user a s = false ↔
      isDoctorOf user a ∨ (isClientOf user a ∧ s ≠ "confirmed" ∧ s ≠ "completed") := by
  unfold statusNotAuthorized isDoctorOf isClientOf
  rcases hrole with hd | hc
  · have hc : ¬ user.role = "client" := by rw [hd]; decide
    simp [hd]
  · have hd : ¬ user.role = "doctor" := by rw [hc]; decide
    simp [hc]
    tauto

theorem updateStatus_cases (db : Db) (user : User) (id : Nat) (body : AppointmentBody) :
    ((updateStatus db user id body).1 = db ∧ (updateStatus db user id body).2.status ≠ 200) ∨
    (∃ s b, body.status = some s ∧ s ∈ validStatuses ∧
      Appointment.findById db id = some b ∧ statusNotAuthorized user b s = false ∧
      updateStatus db user id body =
        ((Appointment.updateStatus db id s).1,
          ⟨200, .statusUpdated "Appointment status updated successfully" id s⟩)) := by
  cases hbs : body.status with
  | none => left; simp [updateStatus, hbs, truthyStr]
  | some s =>
    by_cases hv : s ∈ validStatuses
    · cases hb : Appointment.findById db id with
      | none =>
        left
        have hne := ne_empty_of_valid hv
        simp [updateStatus, hbs, truthyStr, strOr, hne, hv, hb]
      | some b =>
        rw [updateStatus_of_found hbs hv hb]
        cases hna : statusNotAuthorized user b s with
        | true => left; simp
        | false => right; exact ⟨s, b, rfl, hv, rfl, hna, by simp⟩
    · left
      by_cases hne : s = ""
      · simp [updateStatus, hbs, truthyStr, hne]
      · simp [updateStatus, hbs, truthyStr, strOr, hne, hv]

/-! ## Who may read, change and delete an appointment -/

/-- C1 (the code departs from the claim): the guard of `getAppointmentById`,
`updateAppointment` and `deleteAppointment` asks for the role to be doctor and
client at once, so none of the three ever responds 403.  On the database
holding appointment 1 of doctor 1 and client 2, doctor 3 reads the appointment,
client 4 rewrites its status and doctor 3 deletes it, each with a 200. -/
theorem unrelated_principal_is_never_forbidden :
    (∀ (db : Db) (user : User) (id : Nat) (body : AppointmentBody),
      (getAppointmentById db user id).2.status ≠ 403 ∧
      (updateAppointment db user id body).2.status ≠ 403 ∧
      (deleteAppointment db user id).2.status ≠ 403) ∧
    (¬ isDoctorOf ⟨3, "doctor"⟩ (rowOne "pending" "2024-03-10T13:00:00Z") ∧
     ¬ isClientOf ⟨3, "doctor"⟩ (rowOne "pending" "2024-03-10T13:00:00Z") ∧
     ¬ isDoctorOf ⟨4, "client"⟩ (rowOne "pending" "2024-03-10T13:00:00Z") ∧
     ¬ isClientOf ⟨4, "client"⟩ (rowOne "pending" "2024-03-10T13:00:00Z")) ∧
    getAppointmentById (dbOne "pending" "2024-03-10T13:00:00Z") ⟨3, "doctor"⟩ 1 =
      (dbOne "pending" "2024-03-10T13:00:00Z",
        ⟨200, .appointment (rowOne "pending" "2024-03-10T13:00:00Z")⟩) ∧
    updateAppointment (dbOne "pending" "2024-03-10T13:00:00Z") ⟨4, "client"⟩ 1
        (statusBody "completed") =
      (dbOne "completed" "2024-03-10T13:00:00Z",
        ⟨200, .updated "Appointment updated successfully" 1 "completed"
          "2024-03-10T13:00:00Z" (some "checkup")⟩) ∧
    deleteAppointment (dbOne "pending" "2024-03-10T13:00:00Z") ⟨3, "doctor"⟩ 1 =
      ({ dbNoAppointments with seq_rdv := 1 },
        ⟨200, .deleted "Appointment deleted successfully"⟩) := by
  refine ⟨?_, by decide, by decide, by decide, by decide⟩
  intro db user id body
  refine ⟨?_, ?_, ?_⟩
  · unfold getAppointmentById
    cases Appointment.findById db id with
    | none => simp
    | some a => simp [notAuthorized_eq_false]
  · unfold updateAppointment
    cases Appointment.findById db id with
    | none => simp
    | some a =>
      simp only [notAuthorized_eq_false, Bool.false_eq_true, if_false]
      split <;> simp
  · unfold deleteAppointment
    cases Appointment.findById db id with
    | none => simp
    | some a =>
      simp only [notAuthorized_eq_false, Bool.false_eq_true, if_false]
      split <;> simp

/-! ## Status changes -/

/-- C2 (counterexample): appointment 1 is completed and its doctor asks for
`pending`.  The request succeeds and `pending` is stored, although
`completed -> pending` is no edge of the graph. -/
theorem updateStatus_graph_closure_counterexample :
    Appointment.findById (dbOne "completed" "2024-03-10T13:00:00Z") 1 =
      some (rowOne "completed" "2024-03-10T13:00:00Z") ∧
    ¬ (((updateStatus (dbOne "completed" "2024-03-10T13:00:00Z") ⟨1, "doctor"⟩ 1
            (statusBody "pending")).2.status = 200 ∧
        Appointment.findById
          (updateStatus (dbOne "completed" "2024-03-10T13:00:00Z") ⟨1, "doctor"⟩ 1
            (statusBody "pending")).1 1 = some (rowOne "pending" "2024-03-10T13:00:00Z")) ↔
       (specEdge (rowOne "completed" "2024-03-10T13:00:00Z").status "pending" ∧
        specAuthorized ⟨1, "doctor"⟩ (rowOne "completed" "2024-03-10T13:00:00Z") "pending")) := by
  decide

/-- C2 (amended): for an appointment `a` that `findById` returns, a requested
status `s` among the four and a principal with role doctor or client,
`updateStatus` succeeds (200, and `a` is stored with status `s`) exactly when
the principal is `a`'s doctor, or is `a`'s client and `s` is `pending` or
`cancelled`, whatever the current status of `a`; when it does not succeed the
database is unchanged. -/
theorem updateStatus_succeeds_iff_authorized (db : Db) (user : User) (id : Nat)
    (a : AppointmentRow) (s : String) (body : AppointmentBody)
    (ha : Appointment.findById db id = some a) (hs : s ∈ validStatuses)
    (hb : body.status = some s) (hrole : user.role = "doctor" ∨ user.role = "client") :
    (((updateStatus db user id body).2.status = 200 ∧
        Appointment.findById (updateStatus db user id body).1 id =
          some { a with status := s }) ↔
      (isDoctorOf user a ∨ (isClientOf user a ∧ (s = "pending" ∨ s = "cancelled")))) ∧
    ((updateStatus db user id body).2.status ≠ 200 → (updateStatus db user id body).1 = db) := by
  have hid : a.id_rdv = id := by simpa using List.find?_some ha
  have hiff := statusNotAuthorized_eq_false_iff (a := a) (s := s) hrole
  have hsv : (s ≠ "confirmed" ∧ s ≠ "completed") ↔ (s = "pending" ∨ s = "cancelled") := by
    simp only [validStatuses, List.mem_cons, List.mem_singleton, List.not_mem_nil, or_false] at hs
    rcases hs with h | h | h | h <;> subst h <;> decide
  rw [hsv] at hiff
  rw [updateStatus_of_found hb hs ha]
  cases hna : statusNotAuthorized user a s with
  | true =>
    have hno : ¬ (isDoctorOf user a ∨ (isClientOf user a ∧ (s = "pending" ∨ s = "cancelled"))) := by
      intro h
      have := hiff.mpr h
      rw [hna] at this
      cases this
    simp [hno]
  | false =>
    have hyes := hiff.mp hna
    simp [hyes, findById_updateStatus, ha, withStatus, hid]

theorem updateStatus_succeeds_iff_authorized_witness :
    Appointment.findById (dbOne "completed" "2024-03-10T13:00:00Z") 1 =
      some (rowOne "completed" "2024-03-10T13:00:00Z") ∧
    "pending" ∈ validStatuses ∧
    ((((updateStatus (dbOne "completed" "2024-03-10T13:00:00Z") ⟨1, "doctor"⟩ 1
          (statusBody "pending")).2.status = 200 ∧
        Appointment.findById
          (updateStatus (dbOne "completed" "2024-03-10T13:00:00Z") ⟨1, "doctor"⟩ 1
            (statusBody "pending")).1 1 =
          some { rowOne "completed" "2024-03-10T13:00:00Z" with status := "pending" }) ↔
      (isDoctorOf ⟨1, "doctor"⟩ (rowOne "completed" "2024-03-10T13:00:00Z") ∨
        (isClientOf ⟨1, "doctor"⟩ (rowOne "completed" "2024-03-10T13:00:00Z") ∧
          ("pending" = "pending" ∨ "pending" = "cancelled")))) ∧
    ((updateStatus (dbOne "completed" "2024-03-10T13:00:00Z") ⟨1, "doctor"⟩ 1
          (statusBody "pending")).2.status ≠ 200 →
      (updateStatus (dbOne "completed" "2024-03-10T13:00:00Z") ⟨1, "doctor"⟩ 1
          (statusBody "pending")).1 = dbOne "completed" "2024-03-10T13:00:00Z")) :=
  ⟨by decide, by decide,
    updateStatus_succeeds_iff_authorized (dbOne "completed" "2024-03-10T13:00:00Z")
      ⟨1, "doctor"⟩ 1 (rowOne "completed" "2024-03-10T13:00:00Z") "pending"
      (statusBody "pending") (by decide) (by decide) rfl (Or.inl rfl)⟩

/-! ## Booking conflicts -/

/-- C3 (the code departs from the claim): on a server in UTC, doctor 1 has a
pending appointment whose date is `2024-03-10`.  A second `createAppointment`
for doctor 1 at `2024-03-10` finds no booking, because the stored text
`2024-03-10` sorts before the lower bound `2024-03-10T00:00:00.000Z` of the
day; it responds 201 and inserts a second pending appointment at that date.
The same happens for the timestamp `2024-03-10T23:59:59Z`, which sorts after
the upper bound `2024-03-10T23:59:59.999Z`. -/
theorem createAppointment_books_a_taken_slot :
    Appointment.findById (dbOne "pending" "2024-03-10") 1 =
      some (rowOne "pending" "2024-03-10") ∧
    toISOString (utc.setHours (utc.parse "2024-03-10") 0 0 0 0) =
      .ok "2024-03-10T00:00:00.000Z" ∧
    toISOString (utc.setHours (utc.parse "2024-03-10") 23 59 59 999) =
      .ok "2024-03-10T23:59:59.999Z" ∧
    textBetween "2024-03-10" "2024-03-10T00:00:00.000Z" "2024-03-10T23:59:59.999Z" = false ∧
    Appointment.findByDoctorAndDate utc (dbOne "pending" "2024-03-10") 1 "2024-03-10" = .ok [] ∧
    createAppointment utc (dbOne "pending" "2024-03-10") ⟨2, "client"⟩
        (bookingBody 1 "2024-03-10") =
      .ok ({ dbNoAppointments with
              rendez_vous :=
                [{ id_rdv := 1, status := "pending", date := "2024-03-10",
                   description_rdv := some "checkup", id_doc := 1, id_clt := 2 },
                 { id_rdv := 2, status := "pending", date := "2024-03-10",
                   description_rdv := some "checkup", id_doc := 1, id_clt := 2 }],
              seq_rdv := 2 },
           ⟨201, .created "Appointment created successfully"
             (some { rowOne "pending" "2024-03-10" with id_rdv := 2 })⟩) ∧
    textBetween "2024-03-10T23:59:59Z" "2024-03-10T00:00:00.000Z"
      "2024-03-10T23:59:59.999Z" = false ∧
    createAppointment utc (dbOne "pending" "2024-03-10T23:59:59Z") ⟨2, "client"⟩
        (bookingBody 1 "2024-03-10T23:59:59Z") =
      .ok ({ dbNoAppointments with
              rendez_vous :=
                [{ id_rdv := 1, status := "pending", date := "2024-03-10T23:59:59Z",
                   description_rdv := some "checkup", id_doc := 1, id_clt := 2 },
                 { id_rdv := 2, status := "pending", date := "2024-03-10T23:59:59Z",
                   description_rdv := some "checkup", id_doc := 1, id_clt := 2 }],
              seq_rdv := 2 },
           ⟨201, .created "Appointment created successfully"
             (some { rowOne "pending" "2024-03-10T23:59:59Z" with id_rdv := 2 })⟩) := by
  refine ⟨by decide, rfl, rfl, by decide, rfl, rfl, by decide, rfl⟩

/-- C4 (the code departs from the claim): from a database without
appointments, client 2 books doctor 1 at `2024-03-10T13:00:00Z`, books doctor 1
at `2024-03-11T13:00:00Z`, and then moves the second appointment to the date
of the first with `updateAppointment`, which runs no conflict check.  The
database reached holds two pending appointments of doctor 1 at the same date. -/
theorem double_booking_is_reachable :
    dbNoAppointments.rendez_vous = [] ∧
    run utc dbNoAppointments
        [.createAppointment ⟨2, "client"⟩ (bookingBody 1 "2024-03-10T13:00:00Z"),
         .createAppointment ⟨2, "client"⟩ (bookingBody 1 "2024-03-11T13:00:00Z"),
         .updateAppointment ⟨2, "client"⟩ 2 (dateBody "2024-03-10T13:00:00Z")] =
      { dbNoAppointments with
        rendez_vous :=
          [{ id_rdv := 1, status := "pending", date := "2024-03-10T13:00:00Z",
             description_rdv := some "checkup", id_doc := 1, id_clt := 2 },
           { id_rdv := 2, status := "pending", date := "2024-03-10T13:00:00Z",
             description_rdv := some "checkup", id_doc := 1, id_clt := 2 }],
        seq_rdv := 2 } ∧
    ¬ NoDoubleBooking (run utc dbNoAppointments
        [.createAppointment ⟨2, "client"⟩ (bookingBody 1 "2024-03-10T13:00:00Z"),
         .createAppointment ⟨2, "client"⟩ (bookingBody 1 "2024-03-11T13:00:00Z"),
         .updateAppointment ⟨2, "client"⟩ 2 (dateBody "2024-03-10T13:00:00Z")]) := by
  refine ⟨rfl, by decide, by decide⟩

/-- C5 (counterexample): the only appointment of doctor 1 at
`2024-03-10T13:00:00Z` is cancelled, and `createAppointment` for doctor 1 at
that date is still answered 400 `This time slot is already booked`, with
nothing stored. -/
theorem createAppointment_cancelled_slot_counterexample :
    (dbOne "cancelled" "2024-03-10T13:00:00Z").rendez_vous =
      [{ id_rdv := 1, status := "cancelled", date := "2024-03-10T13:00:00Z",
         description_rdv := some "checkup", id_doc := 1, id_clt := 2 }] ∧
    createAppointment utc (dbOne "cancelled" "2024-03-10T13:00:00Z") ⟨2, "client"⟩
        (bookingBody 1 "2024-03-10T13:00:00Z") =
      .ok (dbOne "cancelled" "2024-03-10T13:00:00Z",
        ⟨400, .message "This time slot is already booked"⟩) := by
  refine ⟨rfl, rfl⟩

/-- C5 (amended): a cancelled appointment still occupies its slot.  With the
required fields present, the doctor and the client existing and the requested
date `T` a text that lies within the ISO bounds of its own day, if the doctor
has an appointment at that same date `T` whose status is `cancelled` (its
client existing), then `createAppointment` for that doctor at `T` responds 400
`This time slot is already booked` and stores nothing. -/
theorem createAppointment_cancelled_slot_stays_booked (env : DateEnv) (db : Db)
    (user : User) (body : AppointmentBody) (date lo hi : String) (id_doc id_clt : Nat)
    (a : AppointmentRow)
    (hdate : body.date = some date) (hdne : date ≠ "")
    (hdoc : body.id_doc = some id_doc) (hdoc0 : id_doc ≠ 0)
    (hclt : requester user body = some id_clt) (hclt0 : id_clt ≠ 0)
    (hd : (Doctor.findById db id_doc).isSome) (hc : (Client.findById db id_clt).isSome)
    (hlo : toISOString (env.setHours (env.parse date) 0 0 0 0) = .ok lo)
    (hhi : toISOString (env.setHours (env.parse date) 23 59 59 999) = .ok hi)
    (hself : textBetween date lo hi = true)
    (ha : a ∈ joined db) (hadoc : a.id_doc = id_doc) (hadate : a.date = date)
    (_hast : a.status = "cancelled") :
    createAppointment env db user body =
      .ok (db, ⟨400, .message "This time slot is already booked"⟩) := by
  obtain ⟨d, hd⟩ := Option.isSome_iff_exists.mp hd
  obtain ⟨c, hc⟩ := Option.isSome_iff_exists.mp hc
  have hfind : Appointment.findByDoctorAndDate env db id_doc date =
      .ok ((joined db).filter fun a => a.id_doc == id_doc && textBetween a.date lo hi) := by
    simp only [Appointment.findByDoctorAndDate, hlo, hhi]
  have hmem : a ∈ (joined db).filter fun a => a.id_doc == id_doc && textBetween a.date lo hi := by
    simp only [List.mem_filter]
    exact ⟨ha, by simp [hadoc, hadate, hself]⟩
  have hlen : ((joined db).filter fun a =>
      a.id_doc == id_doc && textBetween a.date lo hi).length > 0 :=
    List.length_pos_of_mem hmem
  unfold requester at hclt
  unfold createAppointment
  simp only [hclt, hdate, hdoc, truthyStr, truthyNat, strOr, Option.getD_some]
  simp [hdne, hdoc0, hclt0, hd, hc, hfind, hlen]

theorem createAppointment_cancelled_slot_stays_booked_witness :
    (Doctor.findById (dbOne "cancelled" "2024-03-10T13:00:00Z") 1).isSome ∧
    (Client.findById (dbOne "cancelled" "2024-03-10T13:00:00Z") 2).isSome ∧
    toISOString (utc.setHours (utc.parse "2024-03-10T13:00:00Z") 0 0 0 0) =
      .ok "2024-03-10T00:00:00.000Z" ∧
    toISOString (utc.setHours (utc.parse "2024-03-10T13:00:00Z") 23 59 59 999) =
      .ok "2024-03-10T23:59:59.999Z" ∧
    textBetween "2024-03-10T13:00:00Z" "2024-03-10T00:00:00.000Z"
      "2024-03-10T23:59:59.999Z" = true ∧
    rowOne "cancelled" "2024-03-10T13:00:00Z" ∈ joined (dbOne "cancelled" "2024-03-10T13:00:00Z") ∧
    (rowOne "cancelled" "2024-03-10T13:00:00Z").date = "2024-03-10T13:00:00Z" ∧
    (rowOne "cancelled" "2024-03-10T13:00:00Z").status = "cancelled" ∧
    createAppointment utc (dbOne "cancelled" "2024-03-10T13:00:00Z") ⟨2, "client"⟩
        (bookingBody 1 "2024-03-10T13:00:00Z") =
      .ok (dbOne "cancelled" "2024-03-10T13:00:00Z",
        ⟨400, .message "This time slot is already booked"⟩) :=
  ⟨by decide, by decide, rfl, rfl, by decide, by decide, rfl, rfl,
    createAppointment_cancelled_slot_stays_booked utc (dbOne "cancelled" "2024-03-10T13:00:00Z")
      ⟨2, "client"⟩ (bookingBody 1 "2024-03-10T13:00:00Z") "2024-03-10T13:00:00Z"
      "2024-03-10T00:00:00.000Z" "2024-03-10T23:59:59.999Z" 1 2
      (rowOne "cancelled" "2024-03-10T13:00:00Z")
      rfl (by decide) rfl (by decide) rfl (by decide) (by decide) (by decide) rfl rfl
      (by decide) (by decide) rfl rfl rfl⟩

/-- C6 (counterexample): appointment 1 is pending and its doctor asks for
`pending`; the response is 200, not an error. -/
theorem updateStatus_self_transition_counterexample :
    Appointment.findById (dbOne "pending" "2024-03-10T13:00:00Z") 1 =
      some (rowOne "pending" "2024-03-10T13:00:00Z") ∧
    updateStatus (dbOne "pending" "2024-03-10T13:00:00Z") ⟨1, "doctor"⟩ 1
        (statusBody "pending") =
      (dbOne "pending" "2024-03-10T13:00:00Z",
        ⟨200, .statusUpdated "Appointment status updated successfully" 1 "pending"⟩) := by
  decide

/-- C6 (amended): with unique primary keys, for an appointment `a` that
`findById` returns and a principal with role doctor or client, `updateStatus`
with the requested status equal to `a.status` leaves the database unchanged.
When that status is one of the four, the response is 200 for `a`'s doctor, and
for `a`'s client if the status is `pending` or `cancelled`, and 403 for
everyone else; when it is not one of the four the response is 400. -/
theorem updateStatus_self_transition (db : Db) (user : User) (id : Nat)
    (a : AppointmentRow) (body : AppointmentBody)
    (hk : PrimaryKeys db) (ha : Appointment.findById db id = some a)
    (hb : body.status = some a.status)
    (hrole : user.role = "doctor" ∨ user.role = "client") :
    (updateStatus db user id body).1 = db ∧
    (a.status ∈ validStatuses →
      ((isDoctorOf user a ∨
          (isClientOf user a ∧ (a.status = "pending" ∨ a.status = "cancelled"))) →
        (updateStatus db user id body).2.status = 200) ∧
      (¬ (isDoctorOf user a ∨
          (isClientOf user a ∧ (a.status = "pending" ∨ a.status = "cancelled"))) →
        (updateStatus db user id body).2.status = 403)) ∧
    (a.status ∉ validStatuses → (updateStatus db user id body).2.status = 400) := by
  by_cases hv : a.status ∈ validStatuses
  · have hiff := statusNotAuthorized_eq_false_iff (a := a) (s := a.status) hrole
    have hsv : (a.status ≠ "confirmed" ∧ a.status ≠ "completed") ↔
        (a.status = "pending" ∨ a.status = "cancelled") := by
      have hs := hv
      simp only [validStatuses, List.mem_cons, List.mem_singleton, List.not_mem_nil,
        or_false] at hs
      rcases hs with h | h | h | h <;> rw [h] <;> decide
    rw [hsv] at hiff
    rw [updateStatus_of_found hb hv ha]
    cases hna : statusNotAuthorized user a a.status with
    | true =>
      have hno : ¬ (isDoctorOf user a ∨
          (isClientOf user a ∧ (a.status = "pending" ∨ a.status = "cancelled"))) := by
        intro h
        have := hiff.mpr h
        rw [hna] at this
        cases this
      simp [hno, hv]
    | false =>
      have hyes := hiff.mp hna
      simp [hyes, hv, updateStatus_same_status hk ha]
  · refine ⟨?_, fun h => absurd h hv, fun _ => ?_⟩
    · unfold updateStatus
      simp only [hb, truthyStr, strOr]
      split
      · rfl
      · split
        · simp_all
        · simp_all
    · unfold updateStatus
      simp only [hb, truthyStr, strOr]
      split
      · rfl
      · split
        · simp_all
        · simp_all

theorem updateStatus_self_transition_witness :
    PrimaryKeys (dbOne "pending" "2024-03-10T13:00:00Z") ∧
    Appointment.findById (dbOne "pending" "2024-03-10T13:00:00Z") 1 =
      some (rowOne "pending" "2024-03-10T13:00:00Z") ∧
    ((updateStatus (dbOne "pending" "2024-03-10T13:00:00Z") ⟨2, "client"⟩ 1
        (statusBody "pending")).1 = dbOne "pending" "2024-03-10T13:00:00Z" ∧
    ((rowOne "pending" "2024-03-10T13:00:00Z").status ∈ validStatuses →
      ((isDoctorOf ⟨2, "client"⟩ (rowOne "pending" "2024-03-10T13:00:00Z") ∨
          (isClientOf ⟨2, "client"⟩ (rowOne "pending" "2024-03-10T13:00:00Z") ∧
            ((rowOne "pending" "2024-03-10T13:00:00Z").status = "pending" ∨
              (rowOne "pending" "2024-03-10T13:00:00Z").status = "cancelled"))) →
        (updateStatus (dbOne "pending" "2024-03-10T13:00:00Z") ⟨2, "client"⟩ 1
          (statusBody "pending")).2.status = 200) ∧
      (¬ (isDoctorOf ⟨2, "client"⟩ (rowOne "pending" "2024-03-10T13:00:00Z") ∨
          (isClientOf ⟨2, "client"⟩ (rowOne "pending" "2024-03-10T13:00:00Z") ∧
            ((rowOne "pending" "2024-03-10T13:00:00Z").status = "pending" ∨
              (rowOne "pending" "2024-03-10T13:00:00Z").status = "cancelled"))) →
        (updateStatus (dbOne "pending" "2024-03-10T13:00:00Z") ⟨2, "client"⟩ 1
          (statusBody "pending")).2.status = 403)) ∧
    ((rowOne "pending" "2024-03-10T13:00:00Z").status ∉ validStatuses →
      (updateStatus (dbOne "pending" "2024-03-10T13:00:00Z") ⟨2, "client"⟩ 1
        (statusBody "pending")).2.status = 400)) :=
  ⟨by decide, by decide,
    updateStatus_self_transition (dbOne "pending" "2024-03-10T13:00:00Z") ⟨2, "client"⟩ 1
      (rowOne "pending" "2024-03-10T13:00:00Z") (statusBody "pending")
      (by decide) (by decide) rfl (Or.inr rfl)⟩

/-- C7 (counterexample): a cancelled appointment is set to `confirmed` by its
doctor through `updateStatus`, and a completed appointment is set to `pending`
by its client through the status field of `updateAppointment`. -/
theorem terminal_status_counterexample :
    Appointment.findById (dbOne "cancelled" "2024-03-10T13:00:00Z") 1 =
      some (rowOne "cancelled" "2024-03-10T13:00:00Z") ∧
    Appointment.findById
        (updateStatus (dbOne "cancelled" "2024-03-10T13:00:00Z") ⟨1, "doctor"⟩ 1
          (statusBody "confirmed")).1 1 =
      some (rowOne "confirmed" "2024-03-10T13:00:00Z") ∧
    Appointment.findById (dbOne "completed" "2024-03-10T13:00:00Z") 1 =
      some (rowOne "completed" "2024-03-10T13:00:00Z") ∧
    Appointment.findById
        (updateAppointment (dbOne "completed" "2024-03-10T13:00:00Z") ⟨2, "client"⟩ 1
          (statusBody "pending")).1 1 =
      some (rowOne "pending" "2024-03-10T13:00:00Z") := by
  decide

/-- C7 (amended): the stored status of an appointment `a`, a cancelled or
completed one included, changes only through a request that addresses `a`
and is carried out.  If after `updateStatus` the status differs, the request
was answered 200, the new status is the requested one, and a principal with
role doctor or client is `a`'s doctor, or `a`'s client asking for `pending` or
`cancelled`.  If after `updateAppointment` the status differs, the body
carries a non-empty status, which is the new status. -/
theorem status_changes_only_by_accepted_request (db : Db) (user : User) (i j : Nat)
    (a : AppointmentRow) (body : AppointmentBody)
    (ha : Appointment.findById db i = some a) :
    (∀ a', Appointment.findById (updateStatus db user j body).1 i = some a' →
      a'.status ≠ a.status →
        j = i ∧ (updateStatus db user j body).2.status = 200 ∧
        body.status = some a'.status ∧
        (user.role = "doctor" ∨ user.role = "client" →
          isDoctorOf user a ∨
            (isClientOf user a ∧ (a'.status = "pending" ∨ a'.status = "cancelled")))) ∧
    (∀ a', Appointment.findById (updateAppointment db user j body).1 i = some a' →
      a'.status ≠ a.status →
        j = i ∧ truthyStr body.status = true ∧ body.status = some a'.status) := by
  have hid : a.id_rdv = i := by simpa using List.find?_some ha
  constructor
  · intro a' hfind hne
    rcases updateStatus_cases db user j body with ⟨hdb, _⟩ | ⟨s, b, hbs, hv, hb, hna, hres⟩
    · rw [hdb, ha] at hfind
      exact absurd (by rw [← Option.some.inj hfind]) hne
    · rw [hres] at hfind
      simp only at hfind
      rw [findById_updateStatus, ha] at hfind
      simp only [Option.map_some', Option.some.injEq] at hfind
      by_cases hji : j = i
      · subst hji
        have hba : b = a := by rw [ha] at hb; exact (Option.some.inj hb).symm
        subst hba
        have hst : a'.status = s := by
          rw [← hfind]; simp [withStatus, hid]
        refine ⟨rfl, by rw [hres], by rw [hbs, hst], ?_⟩
        intro hrole
        rcases (statusNotAuthorized_eq_false_iff hrole).mp hna with h | h
        · exact Or.inl h
        · refine Or.inr ⟨h.1, ?_⟩
          rw [hst]
          simp only [validStatuses, List.mem_cons, List.mem_singleton,
            List.not_mem_nil, or_false] at hv
          rcases hv with h1 | h1 | h1 | h1
          · exact Or.inl h1
          · exact absurd h1 h.2.1
          · exact Or.inr h1
          · exact absurd h1 h.2.2
      · have : withStatus j s a = a := by
          have hne' : ¬ a.id_rdv = j := by rw [hid]; exact fun h => hji h.symm
          simp [withStatus, hne']
        rw [this] at hfind
        exact absurd (by rw [hfind]) hne
  · intro a' hfind hne
    unfold updateAppointment at hfind
    cases hb : Appointment.findById db j with
    | none =>
      simp only [hb] at hfind
      rw [ha] at hfind
      exact absurd (by rw [← Option.some.inj hfind]) hne
    | some b =>
      simp only [hb, notAuthorized_eq_false, Bool.false_eq_true, if_false] at hfind
      have hfind' : Appointment.findById
          (Appointment.update db j (strOr body.status b.status) (strOr body.date b.date)
            (strOrOpt body.description_rdv b.description_rdv)).1 i = some a' := by
        split at hfind <;> exact hfind
      rw [findById_update, ha] at hfind'
      simp only [Option.map_some', Option.some.injEq] at hfind'
      by_cases hji : j = i
      · subst hji
        have hba : b = a := by rw [ha] at hb; exact (Option.some.inj hb).symm
        subst hba
        have hst : a'.status = strOr body.status b.status := by
          rw [← hfind']; simp [withUpdate, hid]
        refine ⟨rfl, ?_⟩
        cases hbs : body.status with
        | none =>
          rw [hbs] at hst
          exact absurd hst hne
        | some s =>
          rw [hbs] at hst
          by_cases hs : s = ""
          · subst hs
            exact absurd hst hne
          · simp only [strOr, bne_iff_ne, ne_eq, hs, not_false_eq_true, if_true] at hst
            simp [truthyStr, hs, hst]
      · have : withUpdate j (strOr body.status b.status) (strOr body.date b.date)
            (strOrOpt body.description_rdv b.description_rdv) a = a := by
          have hne' : ¬ a.id_rdv = j := by rw [hid]; exact fun h => hji h.symm
          simp [withUpdate, hne']
        rw [this] at hfind'
        exact absurd (by rw [hfind']) hne

theorem status_changes_only_by_accepted_request_witness :
    Appointment.findById (dbOne "cancelled" "2024-03-10T13:00:00Z") 1 =
      some (rowOne "cancelled" "2024-03-10T13:00:00Z") ∧
    ((∀ a', Appointment.findById
          (updateStatus (dbOne "cancelled" "2024-03-10T13:00:00Z") ⟨1, "doctor"⟩ 1
            (statusBody "confirmed")).1 1 = some a' →
      a'.status ≠ (rowOne "cancelled" "2024-03-10T13:00:00Z").status →
        1 = 1 ∧
        (updateStatus (dbOne "cancelled" "2024-03-10T13:00:00Z") ⟨1, "doctor"⟩ 1
          (statusBody "confirmed")).2.status = 200 ∧
        (statusBody "confirmed").status = some a'.status ∧
        ((⟨1, "doctor"⟩ : User).role = "doctor" ∨ (⟨1, "doctor"⟩ : User).role = "client" →
          isDoctorOf ⟨1, "doctor"⟩ (rowOne "cancelled" "2024-03-10T13:00:00Z") ∨
            (isClientOf ⟨1, "doctor"⟩ (rowOne "cancelled" "2024-03-10T13:00:00Z") ∧
              (a'.status = "pending" ∨ a'.status = "cancelled")))) ∧
    (∀ a', Appointment.findById
          (updateAppointment (dbOne "cancelled" "2024-03-10T13:00:00Z") ⟨1, "doctor"⟩ 1
            (statusBody "confirmed")).1 1 = some a' →
      a'.status ≠ (rowOne "cancelled" "2024-03-10T13:00:00Z").status →
        1 = 1 ∧ truthyStr (statusBody "confirmed").status = true ∧
        (statusBody "confirmed").status = some a'.status)) :=
  ⟨by decide,
    status_changes_only_by_accepted_request (dbOne "cancelled" "2024-03-10T13:00:00Z")
      ⟨1, "doctor"⟩ 1 1 (rowOne "cancelled" "2024-03-10T13:00:00Z") (statusBody "confirmed")
      (by decide)⟩

theorem updateStatus_of_not_found {db : Db} {user : User} {id : Nat} {s : String}
    {body : AppointmentBody} (hb : body.status = some s) (hs : s ∈ validStatuses)
    (hnone : Appointment.findById db id = none) :
    updateStatus db user id body = (db, ⟨404, .message "Appointment not found"⟩) := by
  have hne := ne_empty_of_valid hs
  unfold updateStatus
  simp only [hb, truthyStr, strOr, hnone]
  simp [hne, hs]

/-- C8 (counterexample): doctor 1 deleted their account, which leaves the
pending appointment 1 in `rendez_vous`.  Client 2, who is not its doctor, asks
for `confirmed`: the response is 404 `Appointment not found`, not 403. -/
theorem updateStatus_confirm_orphan_counterexample :
    (deleteDoctor (dbOne "pending" "2024-03-10T13:00:00Z") ⟨1, "doctor"⟩ 1).1 =
      dbOrphan "pending" "2024-03-10T13:00:00Z" ∧
    (∃ r ∈ (dbOrphan "pending" "2024-03-10T13:00:00Z").rendez_vous,
      r.id_rdv = 1 ∧ r.id_doc = 1 ∧ r.id_clt = 2) ∧
    updateStatus (dbOrphan "pending" "2024-03-10T13:00:00Z") ⟨2, "client"⟩ 1
        (statusBody "confirmed") =
      (dbOrphan "pending" "2024-03-10T13:00:00Z",
        ⟨404, .message "Appointment not found"⟩) ∧
    (updateStatus (dbOrphan "pending" "2024-03-10T13:00:00Z") ⟨2, "client"⟩ 1
      (statusBody "confirmed")).2.status ≠ 403 := by
  decide

/-- C8 (amended): for a requested status `confirmed` or `completed`.  When
`findById` returns the appointment `a` (a stored appointment whose doctor and
client are both still in their tables), `updateStatus` succeeds only for `a`'s
doctor, does succeed for that doctor, and every other request is answered 403
with the database unchanged.  When `findById` returns nothing for the id, as
for a stored appointment whose doctor or client was removed, the response is
404 `Appointment not found` and the database is unchanged. -/
theorem updateStatus_confirm_complete_only_by_doctor (db : Db) (user : User) (id : Nat)
    (s : String) (body : AppointmentBody)
    (hs : s = "confirmed" ∨ s = "completed") (hb : body.status = some s) :
    (∀ a, Appointment.findById db id = some a →
      ((updateStatus db user id body).2.status = 200 → isDoctorOf user a) ∧
      (isDoctorOf user a → (updateStatus db user id body).2.status = 200) ∧
      ((updateStatus db user id body).2.status ≠ 200 →
        (updateStatus db user id body).2.status = 403 ∧
        (updateStatus db user id body).1 = db)) ∧
    (Appointment.findById db id = none →
      updateStatus db user id body = (db, ⟨404, .message "Appointment not found"⟩)) := by
  have hsv : s ∈ validStatuses := by
    rcases hs with h | h <;> subst h <;> decide
  have hcc : (s == "confirmed" || s == "completed") = true := by
    rcases hs with h | h <;> subst h <;> decide
  refine ⟨?_, fun hnone => updateStatus_of_not_found hb hsv hnone⟩
  intro a ha
  rw [updateStatus_of_found hb hsv ha]
  unfold isDoctorOf
  by_cases hd : user.role = "doctor"
  · have hc : ¬ user.role = "client" := by rw [hd]; decide
    by_cases hi : user.id = a.id_doc
    · simp [statusNotAuthorized, hd, hi]
    · simp [statusNotAuthorized, hd, hi]
  · simp [statusNotAuthorized, hcc, hd]

theorem updateStatus_confirm_complete_only_by_doctor_witness :
    Appointment.findById (dbOne "pending" "2024-03-10T13:00:00Z") 1 =
      some (rowOne "pending" "2024-03-10T13:00:00Z") ∧
    ((updateStatus (dbOne "pending" "2024-03-10T13:00:00Z") ⟨2, "client"⟩ 1
        (statusBody "confirmed")).2.status = 200 →
      isDoctorOf ⟨2, "client"⟩ (rowOne "pending" "2024-03-10T13:00:00Z")) ∧
    (isDoctorOf ⟨2, "client"⟩ (rowOne "pending" "2024-03-10T13:00:00Z") →
      (updateStatus (dbOne "pending" "2024-03-10T13:00:00Z") ⟨2, "client"⟩ 1
        (statusBody "confirmed")).2.status = 200) ∧
    ((updateStatus (dbOne "pending" "2024-03-10T13:00:00Z") ⟨2, "client"⟩ 1
        (statusBody "confirmed")).2.status ≠ 200 →
      (updateStatus (dbOne "pending" "2024-03-10T13:00:00Z") ⟨2, "client"⟩ 1
        (statusBody "confirmed")).2.status = 403 ∧
      (updateStatus (dbOne "pending" "2024-03-10T13:00:00Z") ⟨2, "client"⟩ 1
        (statusBody "confirmed")).1 = dbOne "pending" "2024-03-10T13:00:00Z") :=
  ⟨by decide,
    (updateStatus_confirm_complete_only_by_doctor (dbOne "pending" "2024-03-10T13:00:00Z")
      ⟨2, "client"⟩ 1 "confirmed" (statusBody "confirmed") (Or.inl rfl) rfl).1
      (rowOne "pending" "2024-03-10T13:00:00Z") (by decide)⟩

/-- C9 (counterexample): doctor 1 deleted their account, which leaves the
pending appointment 1 in `rendez_vous`.  Its client, client 2, asks for
`cancelled`: the response is 404 `Appointment not found` and the stored status
is still `pending`. -/
theorem updateStatus_cancel_orphan_counterexample :
    (deleteDoctor (dbOne "pending" "2024-03-10T13:00:00Z") ⟨1, "doctor"⟩ 1).1 =
      dbOrphan "pending" "2024-03-10T13:00:00Z" ∧
    (dbOrphan "pending" "2024-03-10T13:00:00Z").rendez_vous =
      [{ id_rdv := 1, status := "pending", date := "2024-03-10T13:00:00Z",
         description_rdv := some "checkup", id_doc := 1, id_clt := 2 }] ∧
    updateStatus (dbOrphan "pending" "2024-03-10T13:00:00Z") ⟨2, "client"⟩ 1
        (statusBody "cancelled") =
      (dbOrphan "pending" "2024-03-10T13:00:00Z",
        ⟨404, .message "Appointment not found"⟩) ∧
    updateStatus (dbOrphan "pending" "2024-03-10T13:00:00Z") ⟨1, "doctor"⟩ 1
        (statusBody "cancelled") =
      (dbOrphan "pending" "2024-03-10T13:00:00Z",
        ⟨404, .message "Appointment not found"⟩) := by
  decide

/-- C9 (amended): for the requested status `cancelled`.  When `findById`
returns the appointment `a` (a stored appointment whose doctor and client are
both still in their tables) and `a` is `pending` or `confirmed`, `updateStatus`
succeeds for `a`'s doctor and for `a`'s client, and afterwards `a` is stored
with status `cancelled`.  When `findById` returns nothing for the id, as for a
stored appointment whose doctor or client was removed, the response is 404
`Appointment not found` and the database is unchanged. -/
theorem updateStatus_cancel_by_doctor_or_client (db : Db) (user : User) (id : Nat)
    (body : AppointmentBody) (hb : body.status = some "cancelled") :
    (∀ a, Appointment.findById db id = some a →
      a.status = "pending" ∨ a.status = "confirmed" →
      isDoctorOf user a ∨ isClientOf user a →
        (updateStatus db user id body).2.status = 200 ∧
        Appointment.findById (updateStatus db user id body).1 id =
          some { a with status := "cancelled" }) ∧
    (Appointment.findById db id = none →
      updateStatus db user id body = (db, ⟨404, .message "Appointment not found"⟩)) := by
  refine ⟨?_, fun hnone => updateStatus_of_not_found hb (by decide) hnone⟩
  intro a ha _ hp
  have hid : a.id_rdv = id := by simpa using List.find?_some ha
  have hrole : user.role = "doctor" ∨ user.role = "client" := by
    rcases hp with h | h
    · exact Or.inl h.1
    · exact Or.inr h.1
  have hna : statusNotAuthorized user a "cancelled" = false := by
    rw [statusNotAuthorized_eq_false_iff hrole]
    rcases hp with h | h
    · exact Or.inl h
    · exact Or.inr ⟨h, by decide, by decide⟩
  rw [updateStatus_of_found hb (by decide) ha]
  simp [hna, findById_updateStatus, ha, withStatus, hid]

theorem updateStatus_cancel_by_doctor_or_client_witness :
    Appointment.findById (dbOne "confirmed" "2024-03-10T13:00:00Z") 1 =
      some (rowOne "confirmed" "2024-03-10T13:00:00Z") ∧
    isClientOf ⟨2, "client"⟩ (rowOne "confirmed" "2024-03-10T13:00:00Z") ∧
    (updateStatus (dbOne "confirmed" "2024-03-10T13:00:00Z") ⟨2, "client"⟩ 1
      (statusBody "cancelled")).2.status = 200 ∧
    Appointment.findById
      (updateStatus (dbOne "confirmed" "2024-03-10T13:00:00Z") ⟨2, "client"⟩ 1
        (statusBody "cancelled")).1 1 =
      some { rowOne "confirmed" "2024-03-10T13:00:00Z" with status := "cancelled" } :=
  ⟨by decide, by decide,
    (updateStatus_cancel_by_doctor_or_client (dbOne "confirmed" "2024-03-10T13:00:00Z")
      ⟨2, "client"⟩ 1 (statusBody "cancelled") rfl).1
      (rowOne "confirmed" "2024-03-10T13:00:00Z") (by decide) (Or.inr rfl)
      (Or.inr (by decide))⟩

/-- C10: for an appointment `a` that `findById` returns, any request body and
a principal with role doctor or client that is neither `a`'s doctor nor `a`'s
client (a doctor whose id is `a.id_clt` and a client whose id is `a.id_doc`
included), `updateStatus` does not succeed and the database is unchanged. -/
theorem updateStatus_unrelated_never_succeeds (db : Db) (user : User) (id : Nat)
    (a : AppointmentRow) (body : AppointmentBody)
    (ha : Appointment.findById db id = some a)
    (hrole : user.role = "doctor" ∨ user.role = "client")
    (hnd : ¬ isDoctorOf user a) (hnc : ¬ isClientOf user a) :
    (updateStatus db user id body).2.status ≠ 200 ∧ (updateStatus db user id body).1 = db := by
  have hna : ∀ s, statusNotAuthorized user a s = true := by
    intro s
    cases h : statusNotAuthorized user a s with
    | true => rfl
    | false =>
      rcases (statusNotAuthorized_eq_false_iff hrole).mp h with h1 | h1
      · exact absurd h1 hnd
      · exact absurd h1.1 hnc
  unfold updateStatus
  simp only [ha, hna, if_true]
  split
  · simp
  · split <;> simp

theorem updateStatus_unrelated_never_succeeds_witness :
    Appointment.findById (dbOne "pending" "2024-03-10T13:00:00Z") 1 =
      some (rowOne "pending" "2024-03-10T13:00:00Z") ∧
    ¬ isDoctorOf ⟨2, "doctor"⟩ (rowOne "pending" "2024-03-10T13:00:00Z") ∧
    ¬ isClientOf ⟨2, "doctor"⟩ (rowOne "pending" "2024-03-10T13:00:00Z") ∧
    (updateStatus (dbOne "pending" "2024-03-10T13:00:00Z") ⟨2, "doctor"⟩ 1
      (statusBody "cancelled")).2.status ≠ 200 ∧
    (updateStatus (dbOne "pending" "2024-03-10T13:00:00Z") ⟨2, "doctor"⟩ 1
      (statusBody "cancelled")).1 = dbOne "pending" "2024-03-10T13:00:00Z" :=
  ⟨by decide, by decide, by decide,
    updateStatus_unrelated_never_succeeds (dbOne "pending" "2024-03-10T13:00:00Z")
      ⟨2, "doctor"⟩ 1 (rowOne "pending" "2024-03-10T13:00:00Z") (statusBody "cancelled")
      (by decide) (Or.inl rfl) (by decide) (by decide)⟩

/-! ## Lemmas on createAppointment -/

theorem foldl_max_ge (l : List RendezVous) (m : Nat) :
    m ≤ l.foldl (fun m r => max m r.id_rdv) m ∧
    ∀ r ∈ l, r.id_rdv ≤ l.foldl (fun m r => max m r.id_rdv) m := by
  induction l generalizing m with
  | nil => simp
  | cons x xs ih =>
    simp only [List.foldl_cons, List.mem_cons]
    have h1 := (ih (max m x.id_rdv)).1
    have h2 := (ih (max m x.id_rdv)).2
    refine ⟨le_trans (le_max_left _ _) h1, ?_⟩
    intro r hr
    rcases hr with rfl | hr
    · exact le_trans (le_max_right _ _) h1
    · exact h2 r hr

theorem lt_lastID (db : Db) : ∀ r ∈ db.rendez_vous, r.id_rdv < Appointment.lastID db := by
  intro r hr
  have := (foldl_max_ge db.rendez_vous db.seq_rdv).2 r hr
  unfold Appointment.lastID
  omega

theorem findById_lastID (db : Db) : Appointment.findById db (Appointment.lastID db) = none := by
  simp only [Appointment.findById, List.find?_eq_none, joined, List.mem_flatMap, List.mem_map,
    List.mem_filter]
  rintro a ⟨r, hr, d, _, c, _, rfl⟩
  have := lt_lastID db r hr
  simp only [joinRow, beq_iff_eq]
  omega

theorem filter_of_find? {α : Type} {p : α → Bool} {l : List α} {a : α}
    (h : l.find? p = some a) : ∃ rest, l.filter p = a :: rest := by
  induction l with
  | nil => cases h
  | cons x xs ih =>
    rw [List.find?_cons] at h
    cases hp : p x with
    | true =>
      rw [hp] at h
      cases h
      exact ⟨xs.filter p, by simp [hp]⟩
    | false =>
      rw [hp] at h
      obtain ⟨rest, hrest⟩ := ih h
      exact ⟨rest, by simp [hp, hrest]⟩

theorem create_rendez_vous (db : Db) (date : String) (description_rdv : Option String)
    (id_doc id_clt : Nat) :
    (Appointment.create db (some "pending") date description_rdv id_doc id_clt).1 =
      { db with rendez_vous := db.rendez_vous ++ [newRecord db date description_rdv id_doc id_clt],
                seq_rdv := Appointment.lastID db } := by
  rfl

theorem create_result {db : Db} {d : Doctor} {c : Client} (date : String)
    (description_rdv : Option String) {id_doc id_clt : Nat}
    (hd : Doctor.findById db id_doc = some d) (hc : Client.findById db id_clt = some c) :
    (Appointment.create db (some "pending") date description_rdv id_doc id_clt).2 =
      some (joinRow (newRecord db date description_rdv id_doc id_clt) d c) := by
  have hdf : ∃ ds, (db.doctors.filter fun x => id_doc == x.id_doc) = d :: ds := by
    apply filter_of_find?
    have : (fun x : Doctor => id_doc == x.id_doc) = fun x => x.id_doc == id_doc := by
      funext x; rw [Bool.eq_iff_iff]; simp only [beq_iff_eq]; exact eq_comm
    rw [this]; exact hd
  have hcf : ∃ cs, (db.clients.filter fun x => id_clt == x.id_clt) = c :: cs := by
    apply filter_of_find?
    have : (fun x : Client => id_clt == x.id_clt) = fun x => x.id_clt == id_clt := by
      funext x; rw [Bool.eq_iff_iff]; simp only [beq_iff_eq]; exact eq_comm
    rw [this]; exact hc
  obtain ⟨ds, hds⟩ := hdf
  obtain ⟨cs, hcs⟩ := hcf
  have hnone := findById_lastID db
  simp only [Appointment.findById, joined] at hnone
  simp only [Appointment.create, Appointment.findById, joined, List.flatMap_append,
    List.find?_append, hnone, Option.none_or, strOr]
  simp [hds, hcs, joinRow, newRecord]

theorem createAppointment_unfold (env : DateEnv) (db : Db) (user : User)
    (body : AppointmentBody) :
    createAppointment env db user body =
      if !truthyStr body.date || !truthyNat body.id_doc ||
          !truthyNat (requester user body) then
        .ok (db, ⟨400, .message "Please provide date, doctor ID, and client ID"⟩)
      else
        match Doctor.findById db (body.id_doc.getD 0) with
        | none => .ok (db, ⟨404, .message "Doctor not found"⟩)
        | some _ =>
          match Client.findById db ((requester user body).getD 0) with
          | none => .ok (db, ⟨404, .message "Client not found"⟩)
          | some _ =>
            match Appointment.findByDoctorAndDate env db (body.id_doc.getD 0)
                (strOr body.date "") with
            | .error e => .error e
            | .ok existingAppointments =>
              if existingAppointments.length > 0 then
                .ok (db, ⟨400, .message "This time slot is already booked"⟩)
              else
                .ok ((Appointment.create db (some "pending") (strOr body.date "")
                        body.description_rdv (body.id_doc.getD 0)
                        ((requester user body).getD 0)).1,
                     ⟨201, .created "Appointment created successfully"
                       (Appointment.create db (some "pending") (strOr body.date "")
                        body.description_rdv (body.id_doc.getD 0)
                        ((requester user body).getD 0)).2⟩) := by
  rfl

theorem createAppointment_of_valid {env : DateEnv} {db : Db} {user : User}
    {body : AppointmentBody} {date lo hi : String} {id_doc id_clt : Nat}
    {d : Doctor} {c : Client}
    (hdate : body.date = some date) (hdne : date ≠ "")
    (hdoc : body.id_doc = some id_doc) (hdoc0 : id_doc ≠ 0)
    (hclt : requester user body = some id_clt) (hclt0 : id_clt ≠ 0)
    (hd : Doctor.findById db id_doc = some d) (hc : Client.findById db id_clt = some c)
    (hlo : toISOString (env.setHours (env.parse date) 0 0 0 0) = .ok lo)
    (hhi : toISOString (env.setHours (env.parse date) 23 59 59 999) = .ok hi) :
    createAppointment env db user body =
      if ((joined db).filter fun a =>
          a.id_doc == id_doc && textBetween a.date lo hi).length > 0 then
        .ok (db, ⟨400, .message "This time slot is already booked"⟩)
      else
        .ok ({ db with
                rendez_vous := db.rendez_vous ++
                  [newRecord db date body.description_rdv id_doc id_clt],
                seq_rdv := Appointment.lastID db },
             ⟨201, .created "Appointment created successfully"
               (some (joinRow (newRecord db date body.description_rdv id_doc id_clt) d c))⟩) := by
  have hfind : Appointment.findByDoctorAndDate env db id_doc date =
      .ok ((joined db).filter fun a => a.id_doc == id_doc && textBetween a.date lo hi) := by
    simp only [Appointment.findByDoctorAndDate, hlo, hhi]
  rw [createAppointment_unfold]
  simp only [hclt, hdate, hdoc, truthyStr, truthyNat, strOr, Option.getD_some]
  simp only [bne_iff_ne, ne_eq, hdne, not_false_eq_true, decide_True, Bool.not_true, hdoc0,
    hclt0, Bool.or_self, Bool.false_eq_true, if_false, if_true, hd, hc, hfind,
    create_result date body.description_rdv hd hc, create_rendez_vous]
  simp [hdne, hdoc0, hclt0]

theorem createAppointment_created_inv {env : DateEnv} {db db' : Db} {user : User}
    {body : AppointmentBody} {res : Response}
    (h : createAppointment env db user body = .ok (db', res)) (h201 : res.status = 201) :
    ∃ date id_doc id_clt d c,
      body.date = some date ∧ date ≠ "" ∧ body.id_doc = some id_doc ∧ id_doc ≠ 0 ∧
      requester user body = some id_clt ∧ id_clt ≠ 0 ∧
      Doctor.findById db id_doc = some d ∧ Client.findById db id_clt = some c ∧
      db' = { db with
              rendez_vous := db.rendez_vous ++
                [newRecord db date body.description_rdv id_doc id_clt],
              seq_rdv := Appointment.lastID db } ∧
      res = ⟨201, .created "Appointment created successfully"
        (some (joinRow (newRecord db date body.description_rdv id_doc id_clt) d c))⟩ := by
  have bad : ∀ {st : Nat} {m : String},
      (Except.ok (db, (⟨st, .message m⟩ : Response)) : Except String (Db × Response)) =
        .ok (db', res) → st ≠ 201 → False := by
    intro st m heq hst
    injection heq with heq
    injection heq with _ hres
    rw [← hres] at h201
    exact hst h201
  rw [createAppointment_unfold] at h
  cases hdate : body.date with
  | none =>
    simp only [hdate, truthyStr, Bool.not_false, Bool.true_or, if_true] at h
    exact (bad h (by decide)).elim
  | some date =>
    by_cases hdne : date = ""
    · simp only [hdate, truthyStr, hdne, bne_self_eq_false, Bool.not_false, Bool.true_or,
        if_true] at h
      exact (bad h (by decide)).elim
    · cases hdoc : body.id_doc with
      | none =>
        simp only [hdoc, truthyNat, Bool.not_false, Bool.true_or, Bool.or_true, if_true] at h
        exact (bad h (by decide)).elim
      | some id_doc =>
        by_cases hdoc0 : id_doc = 0
        · simp only [hdoc, truthyNat, hdoc0, bne_self_eq_false, Bool.not_false, Bool.true_or,
            Bool.or_true, if_true] at h
          exact (bad h (by decide)).elim
        · cases hclt : requester user body with
          | none =>
            simp only [hclt, truthyNat, Bool.not_false, Bool.or_true, if_true] at h
            exact (bad h (by decide)).elim
          | some id_clt =>
            by_cases hclt0 : id_clt = 0
            · simp only [hclt, truthyNat, hclt0, bne_self_eq_false, Bool.not_false,
                Bool.or_true, if_true] at h
              exact (bad h (by decide)).elim
            · have hguard : (!truthyStr (some date) || !truthyNat (some id_doc) ||
                  !truthyNat (some id_clt)) = false := by
                simp [truthyStr, truthyNat, hdne, hdoc0, hclt0]
              simp only [hdate, hdoc, hclt, hguard, Bool.false_eq_true, if_false,
                Option.getD_some] at h
              have hstr : strOr (some date) "" = date := by simp [strOr, hdne]
              rw [hstr] at h
              cases hd : Doctor.findById db id_doc with
              | none =>
                simp only [hd] at h
                exact (bad h (by decide)).elim
              | some d =>
                cases hc : Client.findById db id_clt with
                | none =>
                  simp only [hd, hc] at h
                  exact (bad h (by decide)).elim
                | some c =>
                  simp only [hd, hc] at h
                  cases hq : Appointment.findByDoctorAndDate env db id_doc date with
                  | error e => simp only [hq] at h; cases h
                  | ok ex =>
                    simp only [hq] at h
                    split at h
                    · exact (bad h (by decide)).elim
                    · injection h with h
                      injection h with h1 h2
                      rw [create_rendez_vous] at h1
                      rw [create_result date body.description_rdv hd hc] at h2
                      exact ⟨date, id_doc, id_clt, d, c, rfl, hdne, rfl, hdoc0, rfl, hclt0,
                        hd, hc, h1.symm, h2.symm⟩

/-! ## Lemmas on the slot labels -/

theorem decimalDigits_lt_ten {n fuel : Nat} (h : n < 10) :
    decimalDigits (fuel + 1) n = [digitChar n] := by
  simp [decimalDigits, h]

theorem padStart_numberToString {n : Nat} (h : n < 100) :
    padStart (numberToString (some n)) 2 '0' = pad2 n := by
  by_cases h10 : n < 10
  · have hz : n / 10 = 0 := by omega
    simp only [numberToString, decimalDigits_lt_ten h10, padStart, pad2, hz]
    rfl
  · have hq : n / 10 < 10 := by omega
    obtain ⟨k, hk⟩ : ∃ k, n = k + 1 := ⟨n - 1, by omega⟩
    have hd : decimalDigits (n + 1) n = [digitChar (n / 10), digitChar n] := by
      conv_lhs => rw [decimalDigits]
      simp only [h10, if_false]
      rw [hk, decimalDigits_lt_ten (by omega)]
      rfl
    simp only [numberToString, hd, padStart, pad2]
    rfl

theorem bookedSlot_of_time {env : DateEnv} {a : AppointmentRow} {h m : Nat}
    (hh : env.getHours (env.parse a.date) = some h) (hm : env.getMinutes (env.parse a.date) = some m)
    (hlt : h < 100) (mlt : m < 100) :
    bookedSlot env a = hhmm h m := by
  simp only [bookedSlot, hh, hm, padStart_numberToString hlt, padStart_numberToString mlt, hhmm]

theorem length_padStart (s : List Char) (n : Nat) (c : Char) :
    s.length ≤ (padStart s n c).length := by
  simp [padStart]

theorem bookedSlot_ne_cell_of_nan {env : DateEnv} {a : AppointmentRow} {cell : String}
    (hcell : cell ∈ businessHours)
    (hnan : env.getHours (env.parse a.date) = none ∨ env.getMinutes (env.parse a.date) = none) :
    bookedSlot env a ≠ cell := by
  have hlen : cell.data.length = 5 := by
    simp only [businessHours, List.mem_cons, List.mem_singleton, List.not_mem_nil, or_false]
      at hcell
    rcases hcell with h | h | h | h | h | h | h | h | h | h | h | h | h | h | h | h | h <;>
      subst h <;> rfl
  intro heq
  have hdata : (bookedSlot env a).data.length = 5 := by rw [heq, hlen]
  simp only [bookedSlot, List.length_append, List.length_cons] at hdata
  rcases hnan with hn | hn
  · rw [hn] at hdata
    have := length_padStart (numberToString none) 2 '0'
    have h3 : (numberToString none).length = 3 := rfl
    have := length_padStart (numberToString (env.getMinutes (env.parse a.date))) 2 '0'
    have hpos : 2 ≤ (padStart (numberToString (env.getMinutes (env.parse a.date))) 2 '0').length := by
      simp only [padStart, List.length_append, List.length_replicate]; omega
    omega
  · rw [hn] at hdata
    have := length_padStart (numberToString none) 2 '0'
    have h3 : (numberToString none).length = 3 := rfl
    have hpos : 2 ≤ (padStart (numberToString (env.getHours (env.parse a.date))) 2 '0').length := by
      simp only [padStart, List.length_append, List.length_replicate]; omega
    omega

theorem bookedSlot_beq_cell {env : DateEnv}
    (hh : ∀ d h, env.getHours d = some h → h < 24)
    (hm : ∀ d m, env.getMinutes d = some m → m < 60)
    (a : AppointmentRow) {cell : String} (hcell : cell ∈ businessHours) :
    (bookedSlot env a == cell) = (timeLabel env a == some cell) := by
  cases hH : env.getHours (env.parse a.date) with
  | none =>
    have := bookedSlot_ne_cell_of_nan (a := a) hcell (Or.inl hH)
    simp [timeLabel, hH, this]
  | some h =>
    cases hM : env.getMinutes (env.parse a.date) with
    | none =>
      have := bookedSlot_ne_cell_of_nan (a := a) hcell (Or.inr hM)
      simp [timeLabel, hH, hM, this]
    | some m =>
      have h1 := hh _ _ hH
      have h2 := hm _ _ hM
      rw [bookedSlot_of_time hH hM (by omega) (by omega)]
      simp [timeLabel, hH, hM]

theorem utc_getHours_lt (d : JsDate) (h : Nat) (hd : utc.getHours d = some h) : h < 24 := by
  cases d with
  | none => cases hd
  | some t =>
    simp only [utc, utcGetHours, Option.map_some', Option.some.injEq] at hd
    have h0 : 0 ≤ t % msPerDay := Int.emod_nonneg _ (by decide)
    have h1 : t % msPerDay < msPerDay := Int.emod_lt_of_pos _ (by decide)
    simp only [msPerDay] at h0 h1 hd
    omega

theorem utc_getMinutes_lt (d : JsDate) (m : Nat) (hd : utc.getMinutes d = some m) : m < 60 := by
  cases d with
  | none => cases hd
  | some t =>
    simp only [utc, utcGetMinutes, Option.map_some', Option.some.injEq] at hd
    omega

theorem updateAppointment_of_found {db : Db} {user : User} {id : Nat} {a : AppointmentRow}
    (body : AppointmentBody) (ha : Appointment.findById db id = some a) :
    updateAppointment db user id body =
      ((Appointment.update db id (strOr body.status a.status) (strOr body.date a.date)
          (strOrOpt body.description_rdv a.description_rdv)).1,
        ⟨200, .updated "Appointment updated successfully" id (strOr body.status a.status)
          (strOr body.date a.date) (strOrOpt body.description_rdv a.description_rdv)⟩) := by
  have hpos := changes_pos_of_findById ha
  have h2 : ¬ (Appointment.update db id (strOr body.status a.status) (strOr body.date a.date)
      (strOrOpt body.description_rdv a.description_rdv)).2 = 0 := by
    simpa [Appointment.update] using hpos
  unfold updateAppointment
  simp only [ha, notAuthorized_eq_false, Bool.false_eq_true, if_false]
  simp [h2]

/-! ## Creating an appointment -/

/-- C11 (the code departs from the claim): on a server in UTC the only
appointment of doctor 1 is at `2024-03-10T15:00:00Z`, and client 4 asks for
doctor 1 at `2024-03-10T13:00:00Z`, the same day at another time.
`createAppointment` answers 400 `This time slot is already booked` and stores
nothing, because the conflict query takes every appointment of the day, while
`getAvailableTimeSlots` for that day offers `13:00` as free. -/
theorem createAppointment_rejects_another_slot_of_the_day :
    (dbOne "pending" "2024-03-10T15:00:00Z").rendez_vous =
      [{ id_rdv := 1, status := "pending", date := "2024-03-10T15:00:00Z",
         description_rdv := some "checkup", id_doc := 1, id_clt := 2 }] ∧
    Appointment.findByDoctorAndDate utc (dbOne "pending" "2024-03-10T15:00:00Z") 1
        "2024-03-10T13:00:00Z" = .ok [rowOne "pending" "2024-03-10T15:00:00Z"] ∧
    createAppointment utc (dbOne "pending" "2024-03-10T15:00:00Z") ⟨4, "client"⟩
        (bookingBody 1 "2024-03-10T13:00:00Z") =
      .ok (dbOne "pending" "2024-03-10T15:00:00Z",
        ⟨400, .message "This time slot is already booked"⟩) ∧
    (∀ now, getAvailableTimeSlots utc now (dbOne "pending" "2024-03-10T15:00:00Z") 1
        (some "2024-03-10") =
      .ok ⟨200, .slots 1 "2024-03-10"
        ["09:00", "09:30", "10:00", "10:30", "11:00", "11:30", "12:00", "12:30", "13:00",
         "13:30", "14:00", "14:30", "15:30", "16:00", "16:30", "17:00"]⟩) := by
  refine ⟨rfl, rfl, rfl, fun _ => rfl⟩

/-- C12: with the required fields present, the doctor and the client existing
and the day bounds of the requested date defined, if every appointment in the
store whose date lies within those bounds belongs to another doctor, then
`createAppointment` is not rejected as a conflict: it responds 201 and appends
the new pending record. -/
theorem createAppointment_other_doctors_never_conflict (env : DateEnv) (db : Db)
    (user : User) (body : AppointmentBody) (date lo hi : String) (id_doc id_clt : Nat)
    (hdate : body.date = some date) (hdne : date ≠ "")
    (hdoc : body.id_doc = some id_doc) (hdoc0 : id_doc ≠ 0)
    (hclt : requester user body = some id_clt) (hclt0 : id_clt ≠ 0)
    (hd : (Doctor.findById db id_doc).isSome) (hc : (Client.findById db id_clt).isSome)
    (hlo : toISOString (env.setHours (env.parse date) 0 0 0 0) = .ok lo)
    (hhi : toISOString (env.setHours (env.parse date) 23 59 59 999) = .ok hi)
    (hother : ∀ r ∈ db.rendez_vous, textBetween r.date lo hi = true → r.id_doc ≠ id_doc) :
    ∃ a, createAppointment env db user body =
      .ok ({ db with
              rendez_vous := db.rendez_vous ++
                [newRecord db date body.description_rdv id_doc id_clt],
              seq_rdv := Appointment.lastID db },
           ⟨201, .created "Appointment created successfully" (some a)⟩) := by
  obtain ⟨d, hd⟩ := Option.isSome_iff_exists.mp hd
  obtain ⟨c, hc⟩ := Option.isSome_iff_exists.mp hc
  have hnil : ((joined db).filter fun a =>
      a.id_doc == id_doc && textBetween a.date lo hi) = [] := by
    rw [List.filter_eq_nil_iff]
    intro a ha
    simp only [joined, List.mem_flatMap, List.mem_map, List.mem_filter] at ha
    obtain ⟨r, hr, d', _, c', _, rfl⟩ := ha
    intro hp
    simp only [joinRow, Bool.and_eq_true, beq_iff_eq] at hp
    exact hother r hr hp.2 hp.1
  refine ⟨joinRow (newRecord db date body.description_rdv id_doc id_clt) d c, ?_⟩
  rw [createAppointment_of_valid hdate hdne hdoc hdoc0 hclt hclt0 hd hc hlo hhi, hnil]
  simp

theorem createAppointment_other_doctors_never_conflict_witness :
    (Doctor.findById (dbOne "pending" "2024-03-10T13:00:00Z") 3).isSome ∧
    (Client.findById (dbOne "pending" "2024-03-10T13:00:00Z") 4).isSome ∧
    toISOString (utc.setHours (utc.parse "2024-03-10T13:00:00Z") 0 0 0 0) =
      .ok "2024-03-10T00:00:00.000Z" ∧
    toISOString (utc.setHours (utc.parse "2024-03-10T13:00:00Z") 23 59 59 999) =
      .ok "2024-03-10T23:59:59.999Z" ∧
    (∀ r ∈ (dbOne "pending" "2024-03-10T13:00:00Z").rendez_vous,
      textBetween r.date "2024-03-10T00:00:00.000Z" "2024-03-10T23:59:59.999Z" = true →
        r.id_doc ≠ 3) ∧
    ∃ a, createAppointment utc (dbOne "pending" "2024-03-10T13:00:00Z") ⟨4, "client"⟩
        (bookingBody 3 "2024-03-10T13:00:00Z") =
      .ok ({ dbOne "pending" "2024-03-10T13:00:00Z" with
              rendez_vous := (dbOne "pending" "2024-03-10T13:00:00Z").rendez_vous ++
                [newRecord (dbOne "pending" "2024-03-10T13:00:00Z") "2024-03-10T13:00:00Z"
                  (bookingBody 3 "2024-03-10T13:00:00Z").description_rdv 3 4],
              seq_rdv := Appointment.lastID (dbOne "pending" "2024-03-10T13:00:00Z") },
           ⟨201, .created "Appointment created successfully" (some a)⟩) :=
  ⟨by decide, by decide, rfl, rfl, by decide,
    createAppointment_other_doctors_never_conflict utc
      (dbOne "pending" "2024-03-10T13:00:00Z") ⟨4, "client"⟩
      (bookingBody 3 "2024-03-10T13:00:00Z") "2024-03-10T13:00:00Z"
      "2024-03-10T00:00:00.000Z" "2024-03-10T23:59:59.999Z" 3 4
      rfl (by decide) rfl (by decide) rfl (by decide) (by decide) (by decide) rfl rfl
      (by decide)⟩

/-- C13: every `createAppointment` answered 201 appends exactly one record to
`rendez_vous` and changes nothing else.  The record has a fresh id, status
`pending` whatever status the body carries, and the date, description, doctor
and client of the request (the client being the principal when its role is
client); the response returns that record as `findById` reads it back. -/
theorem createAppointment_success_stores_one_pending_record (env : DateEnv) (db db' : Db)
    (user : User) (body : AppointmentBody) (res : Response)
    (h : createAppointment env db user body = .ok (db', res))
    (h201 : res.status = 201) :
    ∃ (row : RendezVous) (a : AppointmentRow),
      db'.rendez_vous = db.rendez_vous ++ [row] ∧
      db'.doctors = db.doctors ∧ db'.clients = db.clients ∧
      (∀ r ∈ db.rendez_vous, r.id_rdv ≠ row.id_rdv) ∧
      row.status = "pending" ∧
      body.date = some row.date ∧
      row.description_rdv = body.description_rdv ∧
      body.id_doc = some row.id_doc ∧
      requester user body = some row.id_clt ∧
      res = ⟨201, .created "Appointment created successfully" (some a)⟩ ∧
      Appointment.findById db' row.id_rdv = some a ∧
      a.id_rdv = row.id_rdv ∧ a.status = row.status ∧ a.date = row.date ∧
      a.description_rdv = row.description_rdv ∧ a.id_doc = row.id_doc ∧
      a.id_clt = row.id_clt := by
  obtain ⟨date, id_doc, id_clt, d, c, hdate, _, hdoc, _, hclt, _, hd, hc, hdb, hres⟩ :=
    createAppointment_created_inv h h201
  refine ⟨newRecord db date body.description_rdv id_doc id_clt,
    joinRow (newRecord db date body.description_rdv id_doc id_clt) d c, ?_⟩
  have hfind : Appointment.findById db' (Appointment.lastID db) =
      some (joinRow (newRecord db date body.description_rdv id_doc id_clt) d c) := by
    have h2 := create_result date body.description_rdv hd hc
    have h1 := create_rendez_vous db date body.description_rdv id_doc id_clt
    rw [hdb, ← h1, ← h2]
    rfl
  refine ⟨by rw [hdb], by rw [hdb], by rw [hdb], ?_, rfl, hdate, rfl, hdoc, hclt, hres,
    hfind, rfl, rfl, rfl, rfl, rfl, rfl⟩
  intro r hr
  have := lt_lastID db r hr
  simp only [newRecord]
  omega

theorem createAppointment_success_stores_one_pending_record_witness :
    createAppointment utc dbNoAppointments ⟨2, "client"⟩ bookingBodyWithStatus =
      .ok (dbOne "pending" "2024-03-10T13:00:00Z",
        ⟨201, .created "Appointment created successfully"
          (some (rowOne "pending" "2024-03-10T13:00:00Z"))⟩) ∧
    ∃ (row : RendezVous) (a : AppointmentRow),
      (dbOne "pending" "2024-03-10T13:00:00Z").rendez_vous =
        dbNoAppointments.rendez_vous ++ [row] ∧
      (dbOne "pending" "2024-03-10T13:00:00Z").doctors = dbNoAppointments.doctors ∧
      (dbOne "pending" "2024-03-10T13:00:00Z").clients = dbNoAppointments.clients ∧
      (∀ r ∈ dbNoAppointments.rendez_vous, r.id_rdv ≠ row.id_rdv) ∧
      row.status = "pending" ∧
      bookingBodyWithStatus.date = some row.date ∧
      row.description_rdv = bookingBodyWithStatus.description_rdv ∧
      bookingBodyWithStatus.id_doc = some row.id_doc ∧
      requester ⟨2, "client"⟩ bookingBodyWithStatus = some row.id_clt ∧
      (⟨201, .created "Appointment created successfully"
          (some (rowOne "pending" "2024-03-10T13:00:00Z"))⟩ : Response) =
        ⟨201, .created "Appointment created successfully" (some a)⟩ ∧
      Appointment.findById (dbOne "pending" "2024-03-10T13:00:00Z") row.id_rdv = some a ∧
      a.id_rdv = row.id_rdv ∧ a.status = row.status ∧ a.date = row.date ∧
      a.description_rdv = row.description_rdv ∧ a.id_doc = row.id_doc ∧
      a.id_clt = row.id_clt :=
  ⟨rfl,
    createAppointment_success_stores_one_pending_record utc dbNoAppointments
      (dbOne "pending" "2024-03-10T13:00:00Z") ⟨2, "client"⟩ bookingBodyWithStatus
      ⟨201, .created "Appointment created successfully"
        (some (rowOne "pending" "2024-03-10T13:00:00Z"))⟩
      rfl rfl⟩

/-- C14: with the required fields present, if `id_doc` names no doctor or the
client of the request names no client, `createAppointment` responds 404
(`Doctor not found` or `Client not found`) and the database is unchanged,
whatever the store holds for the requested date. -/
theorem createAppointment_unknown_doctor_or_client (env : DateEnv) (db : Db)
    (user : User) (body : AppointmentBody) (date : String) (id_doc id_clt : Nat)
    (hdate : body.date = some date) (hdne : date ≠ "")
    (hdoc : body.id_doc = some id_doc) (hdoc0 : id_doc ≠ 0)
    (hclt : requester user body = some id_clt) (hclt0 : id_clt ≠ 0)
    (hmiss : Doctor.findById db id_doc = none ∨ Client.findById db id_clt = none) :
    createAppointment env db user body = .ok (db, ⟨404, .message "Doctor not found"⟩) ∨
    createAppointment env db user body = .ok (db, ⟨404, .message "Client not found"⟩) := by
  have hguard : (!truthyStr (some date) || !truthyNat (some id_doc) ||
      !truthyNat (some id_clt)) = false := by
    simp [truthyStr, truthyNat, hdne, hdoc0, hclt0]
  rw [createAppointment_unfold]
  simp only [hdate, hdoc, hclt, hguard, Bool.false_eq_true, if_false, Option.getD_some]
  cases hd : Doctor.findById db id_doc with
  | none => left; rfl
  | some d =>
    rcases hmiss with h | h
    · rw [hd] at h; cases h
    · right; simp only [h]

theorem createAppointment_unknown_doctor_or_client_witness :
    Doctor.findById dbNoAppointments 7 = none ∧
    (createAppointment utc dbNoAppointments ⟨2, "client"⟩
        (bookingBody 7 "2024-03-10T13:00:00Z") =
      .ok (dbNoAppointments, ⟨404, .message "Doctor not found"⟩) ∨
     createAppointment utc dbNoAppointments ⟨2, "client"⟩
        (bookingBody 7 "2024-03-10T13:00:00Z") =
      .ok (dbNoAppointments, ⟨404, .message "Client not found"⟩)) :=
  ⟨by decide,
    createAppointment_unknown_doctor_or_client utc dbNoAppointments ⟨2, "client"⟩
      (bookingBody 7 "2024-03-10T13:00:00Z") "2024-03-10T13:00:00Z" 7 2
      rfl (by decide) rfl (by decide) rfl (by decide) (Or.inl (by decide))⟩

/-! ## Available slots -/

/-- C15: for an existing doctor, a requested date whose day bounds are defined
and a store in which no appointment of that doctor has its date within those
bounds, `getAvailableTimeSlots` responds 200 with exactly the 17 cells from
`09:00` to `17:00`, in that order. -/
theorem getAvailableTimeSlots_free_day (env : DateEnv) (now : Int) (db : Db)
    (doctorId : Nat) (date : Option String) (lo hi : String)
    (hd : (Doctor.findById db doctorId).isSome)
    (hlo : toISOString (env.setHours (env.parse (targetDate now date)) 0 0 0 0) = .ok lo)
    (hhi : toISOString (env.setHours (env.parse (targetDate now date)) 23 59 59 999) = .ok hi)
    (hfree : ∀ r ∈ db.rendez_vous, r.id_doc = doctorId → textBetween r.date lo hi = false) :
    getAvailableTimeSlots env now db doctorId date =
      .ok ⟨200, .slots doctorId (targetDate now date)
        ["09:00", "09:30", "10:00", "10:30", "11:00", "11:30", "12:00", "12:30", "13:00",
         "13:30", "14:00", "14:30", "15:00", "15:30", "16:00", "16:30", "17:00"]⟩ := by
  obtain ⟨d, hd⟩ := Option.isSome_iff_exists.mp hd
  have hnil : ((joined db).filter fun a =>
      a.id_doc == doctorId && textBetween a.date lo hi) = [] := by
    rw [List.filter_eq_nil_iff]
    intro a ha
    simp only [joined, List.mem_flatMap, List.mem_map, List.mem_filter] at ha
    obtain ⟨r, hr, d', _, c', _, rfl⟩ := ha
    intro hp
    simp only [joinRow, Bool.and_eq_true, beq_iff_eq] at hp
    have := hfree r hr hp.1
    rw [hp.2] at this
    cases this
  have hq : Appointment.findByDoctorAndDate env db doctorId (targetDate now date) = .ok [] := by
    simp only [Appointment.findByDoctorAndDate, hlo, hhi, hnil]
  simp only [getAvailableTimeSlots, hd, hq]
  rfl

theorem getAvailableTimeSlots_free_day_witness :
    (Doctor.findById (dbOne "pending" "2024-03-10T13:00:00Z") 1).isSome ∧
    toISOString (utc.setHours
        (utc.parse (targetDate 1710075600000 (some "2024-03-11"))) 0 0 0 0) =
      .ok "2024-03-11T00:00:00.000Z" ∧
    toISOString (utc.setHours
        (utc.parse (targetDate 1710075600000 (some "2024-03-11"))) 23 59 59 999) =
      .ok "2024-03-11T23:59:59.999Z" ∧
    (∀ r ∈ (dbOne "pending" "2024-03-10T13:00:00Z").rendez_vous, r.id_doc = 1 →
      textBetween r.date "2024-03-11T00:00:00.000Z" "2024-03-11T23:59:59.999Z" = false) ∧
    getAvailableTimeSlots utc 1710075600000 (dbOne "pending" "2024-03-10T13:00:00Z") 1
        (some "2024-03-11") =
      .ok ⟨200, .slots 1 (targetDate 1710075600000 (some "2024-03-11"))
        ["09:00", "09:30", "10:00", "10:30", "11:00", "11:30", "12:00", "12:30", "13:00",
         "13:30", "14:00", "14:30", "15:00", "15:30", "16:00", "16:30", "17:00"]⟩ :=
  ⟨by decide, rfl, rfl, by decide,
    getAvailableTimeSlots_free_day utc 1710075600000 (dbOne "pending" "2024-03-10T13:00:00Z")
      1 (some "2024-03-11") "2024-03-11T00:00:00.000Z" "2024-03-11T23:59:59.999Z"
      (by decide) rfl rfl (by decide)⟩

/-- C16: for an existing doctor and the list of appointments that
`findByDoctorAndDate` returns for the requested date, in an environment whose
hours are below 24 and minutes below 60, `getAvailableTimeSlots` responds 200
with the business-hours grid from which exactly the cells are removed whose
label is the two-digit `HH:MM` local time of day of some appointment of the
list; the status of the appointment plays no part.  The result is a sublist of
the grid (so it keeps its order) and has no duplicates, and the grid is the 17
cells from `09:00` to `17:00`. -/
theorem getAvailableTimeSlots_removes_booked_cells (env : DateEnv) (now : Int) (db : Db)
    (doctorId : Nat) (date : Option String) (appointments : List AppointmentRow)
    (hh : ∀ d h, env.getHours d = some h → h < 24)
    (hm : ∀ d m, env.getMinutes d = some m → m < 60)
    (hd : (Doctor.findById db doctorId).isSome)
    (hq : Appointment.findByDoctorAndDate env db doctorId (targetDate now date) =
      .ok appointments) :
    ∃ slots,
      getAvailableTimeSlots env now db doctorId date =
        .ok ⟨200, .slots doctorId (targetDate now date) slots⟩ ∧
      slots = businessHours.filter (fun cell =>
        !(appointments.any fun a => timeLabel env a == some cell)) ∧
      slots.Sublist businessHours ∧ slots.Nodup ∧
      businessHours =
        ["09:00", "09:30", "10:00", "10:30", "11:00", "11:30", "12:00", "12:30", "13:00",
         "13:30", "14:00", "14:30", "15:00", "15:30", "16:00", "16:30", "17:00"] := by
  obtain ⟨d, hd⟩ := Option.isSome_iff_exists.mp hd
  have hfilter : (businessHours.filter fun slot =>
        !(appointments.map (bookedSlot env)).contains slot) =
      businessHours.filter (fun cell =>
        !(appointments.any fun a => timeLabel env a == some cell)) := by
    apply List.filter_congr
    intro cell hcell
    congr 1
    rw [Bool.eq_iff_iff]
    simp only [List.contains_iff_exists_mem_beq, List.mem_map, List.any_eq_true]
    constructor
    · rintro ⟨s, ⟨a, ha, rfl⟩, hs⟩
      refine ⟨a, ha, ?_⟩
      rw [← bookedSlot_beq_cell hh hm a hcell]
      rw [beq_iff_eq] at hs ⊢
      exact hs.symm
    · rintro ⟨a, ha, hs⟩
      rw [← bookedSlot_beq_cell hh hm a hcell] at hs
      refine ⟨bookedSlot env a, ⟨a, ha, rfl⟩, ?_⟩
      rw [beq_iff_eq] at hs ⊢
      exact hs.symm
  have hnodup : businessHours.Nodup := by decide
  refine ⟨businessHours.filter (fun cell =>
      !(appointments.any fun a => timeLabel env a == some cell)), ?_, rfl,
    List.filter_sublist _, hnodup.filter _, rfl⟩
  simp only [getAvailableTimeSlots, hd, hq, hfilter]

theorem getAvailableTimeSlots_removes_booked_cells_witness :
    (Doctor.findById (dbOne "cancelled" "2024-03-10T13:00:00Z") 1).isSome ∧
    Appointment.findByDoctorAndDate utc (dbOne "cancelled" "2024-03-10T13:00:00Z") 1
        (targetDate 1710075600000 (some "2024-03-10")) =
      .ok [rowOne "cancelled" "2024-03-10T13:00:00Z"] ∧
    ∃ slots,
      getAvailableTimeSlots utc 1710075600000 (dbOne "cancelled" "2024-03-10T13:00:00Z") 1
          (some "2024-03-10") =
        .ok ⟨200, .slots 1 (targetDate 1710075600000 (some "2024-03-10")) slots⟩ ∧
      slots = businessHours.filter (fun cell =>
        !([rowOne "cancelled" "2024-03-10T13:00:00Z"].any fun a =>
          timeLabel utc a == some cell)) ∧
      slots.Sublist businessHours ∧ slots.Nodup ∧
      businessHours =
        ["09:00", "09:30", "10:00", "10:30", "11:00", "11:30", "12:00", "12:30", "13:00",
         "13:30", "14:00", "14:30", "15:00", "15:30", "16:00", "16:30", "17:00"] :=
  ⟨by decide, rfl,
    getAvailableTimeSlots_removes_booked_cells utc 1710075600000
      (dbOne "cancelled" "2024-03-10T13:00:00Z") 1 (some "2024-03-10")
      [rowOne "cancelled" "2024-03-10T13:00:00Z"] utc_getHours_lt utc_getMinutes_lt
      (by decide) rfl⟩

/-- C17 (the code departs from the claim): on a server in UTC, for the existing
doctor 1 and the date `tomorrow`, which does not parse, `getAvailableTimeSlots`
sends no 400: `toISOString` throws a `RangeError` inside
`findByDoctorAndDate` and the handler ends with that exception. -/
theorem getAvailableTimeSlots_unparsable_date_throws :
    utc.parse "tomorrow" = none ∧
    (Doctor.findById dbNoAppointments 1).isSome ∧
    (∀ now, getAvailableTimeSlots utc now dbNoAppointments 1 (some "tomorrow") =
      .error "RangeError: Invalid time value") := by
  refine ⟨rfl, by decide, fun _ => rfl⟩

/-! ## What an update may change -/

/-- C18 (counterexample): appointment 1 is pending and its client sends
`updateAppointment` with the body `{status: 'cancelled'}`; the response is 200
and the stored status is `cancelled`. -/
theorem updateAppointment_keeps_status_counterexample :
    Appointment.findById (dbOne "pending" "2024-03-10T13:00:00Z") 1 =
      some (rowOne "pending" "2024-03-10T13:00:00Z") ∧
    (updateAppointment (dbOne "pending" "2024-03-10T13:00:00Z") ⟨2, "client"⟩ 1
      (statusBody "cancelled")).2.status = 200 ∧
    Appointment.findById
      (updateAppointment (dbOne "pending" "2024-03-10T13:00:00Z") ⟨2, "client"⟩ 1
        (statusBody "cancelled")).1 1 = some (rowOne "cancelled" "2024-03-10T13:00:00Z") ∧
    (rowOne "cancelled" "2024-03-10T13:00:00Z").status ≠
      (rowOne "pending" "2024-03-10T13:00:00Z").status := by
  decide

/-- C18 (amended): `updateAppointment` applies the status of the body as well.
For an appointment `a` that `findById` returns, a principal that is `a`'s
doctor or `a`'s client and a body whose status is absent, empty or one of the
four status names: after an `updateAppointment` answered 200, `a` is stored
with the body's status when the body carries a non-empty one, and with its
status before the request otherwise. -/
theorem updateAppointment_applies_the_status_of_the_body (db : Db) (user : User)
    (id : Nat) (a : AppointmentRow) (body : AppointmentBody)
    (ha : Appointment.findById db id = some a)
    (_hp : isDoctorOf user a ∨ isClientOf user a)
    (_hst : truthyStr body.status = false ∨ ∃ s ∈ validStatuses, body.status = some s)
    (_h200 : (updateAppointment db user id body).2.status = 200) :
    ∃ a', Appointment.findById (updateAppointment db user id body).1 id = some a' ∧
      a'.status = strOr body.status a.status ∧
      (truthyStr body.status = false → a'.status = a.status) ∧
      (∀ s, body.status = some s → s ≠ "" → a'.status = s) := by
  have hid : a.id_rdv = id := by simpa using List.find?_some ha
  rw [updateAppointment_of_found body ha]
  refine ⟨withUpdate id (strOr body.status a.status) (strOr body.date a.date)
      (strOrOpt body.description_rdv a.description_rdv) a,
    by simp only [findById_update, ha, Option.map_some'], ?_, ?_, ?_⟩
  · simp [withUpdate, hid]
  · intro h
    cases hb : body.status with
    | none => simp [withUpdate, hid, strOr]
    | some s =>
      have : s = "" := by simpa [hb, truthyStr] using h
      simp [withUpdate, hid, strOr, this]
  · intro s hb hs
    simp [withUpdate, hid, hb, strOr, hs]

theorem updateAppointment_applies_the_status_of_the_body_witness :
    Appointment.findById (dbOne "pending" "2024-03-10T13:00:00Z") 1 =
      some (rowOne "pending" "2024-03-10T13:00:00Z") ∧
    isClientOf ⟨2, "client"⟩ (rowOne "pending" "2024-03-10T13:00:00Z") ∧
    (∃ s ∈ validStatuses, (statusBody "cancelled").status = some s) ∧
    (updateAppointment (dbOne "pending" "2024-03-10T13:00:00Z") ⟨2, "client"⟩ 1
      (statusBody "cancelled")).2.status = 200 ∧
    ∃ a', Appointment.findById
        (updateAppointment (dbOne "pending" "2024-03-10T13:00:00Z") ⟨2, "client"⟩ 1
          (statusBody "cancelled")).1 1 = some a' ∧
      a'.status = strOr (statusBody "cancelled").status
        (rowOne "pending" "2024-03-10T13:00:00Z").status ∧
      (truthyStr (statusBody "cancelled").status = false →
        a'.status = (rowOne "pending" "2024-03-10T13:00:00Z").status) ∧
      (∀ s, (statusBody "cancelled").status = some s → s ≠ "" → a'.status = s) :=
  ⟨by decide, by decide, ⟨"cancelled", by decide, rfl⟩, by decide,
    updateAppointment_applies_the_status_of_the_body
      (dbOne "pending" "2024-03-10T13:00:00Z") ⟨2, "client"⟩ 1
      (rowOne "pending" "2024-03-10T13:00:00Z") (statusBody "cancelled")
      (by decide) (Or.inr (by decide)) (Or.inr ⟨"cancelled", by decide, rfl⟩) (by decide)⟩

/-- C19 (the code departs from the claim): every status of the store is one of
the four names, and the client of appointment 1 sends `updateAppointment` with
the body `{status: 'banana'}`.  The request is answered 200 and the store
reached holds an appointment whose status is `banana`: `updateAppointment`
writes the body's status without the check against `validStatuses` that
`updateStatus` makes. -/
theorem invalid_status_is_reachable :
    StatusesValid (dbOne "pending" "2024-03-10T13:00:00Z") ∧
    (updateAppointment (dbOne "pending" "2024-03-10T13:00:00Z") ⟨2, "client"⟩ 1
      (statusBody "banana")).2.status = 200 ∧
    (updateStatus (dbOne "pending" "2024-03-10T13:00:00Z") ⟨2, "client"⟩ 1
      (statusBody "banana")).2 = ⟨400, .message "Invalid status value"⟩ ∧
    run utc (dbOne "pending" "2024-03-10T13:00:00Z")
        [.updateAppointment ⟨2, "client"⟩ 1 (statusBody "banana")] =
      dbOne "banana" "2024-03-10T13:00:00Z" ∧
    ¬ StatusesValid (run utc (dbOne "pending" "2024-03-10T13:00:00Z")
        [.updateAppointment ⟨2, "client"⟩ 1 (statusBody "banana")]) := by
  decide

/-- C20: `updateAppointment` and `updateStatus` never write `id_doc` or
`id_clt`: whatever the principal, the id and the body (its `id_doc` and
`id_clt` included), the table holds after the request the same appointments,
in the same order, with the same doctor and the same client as before. -/
theorem update_keeps_doctor_and_client (db : Db) (user : User) (id : Nat)
    (body : AppointmentBody) :
    (updateAppointment db user id body).1.rendez_vous.map
        (fun r => (r.id_rdv, r.id_doc, r.id_clt)) =
      db.rendez_vous.map (fun r => (r.id_rdv, r.id_doc, r.id_clt)) ∧
    (updateStatus db user id body).1.rendez_vous.map
        (fun r => (r.id_rdv, r.id_doc, r.id_clt)) =
      db.rendez_vous.map (fun r => (r.id_rdv, r.id_doc, r.id_clt)) := by
  have hupd : ∀ st dt ds,
      (Appointment.update db id st dt ds).1.rendez_vous.map
          (fun r => (r.id_rdv, r.id_doc, r.id_clt)) =
        db.rendez_vous.map (fun r => (r.id_rdv, r.id_doc, r.id_clt)) := by
    intro st dt ds
    simp only [Appointment.update, List.map_map]
    apply List.map_congr_left
    intro r _
    simp only [Function.comp]
    split <;> rfl
  have hst : ∀ st,
      (Appointment.updateStatus db id st).1.rendez_vous.map
          (fun r => (r.id_rdv, r.id_doc, r.id_clt)) =
        db.rendez_vous.map (fun r => (r.id_rdv, r.id_doc, r.id_clt)) := by
    intro st
    simp only [Appointment.updateStatus, List.map_map]
    apply List.map_congr_left
    intro r _
    simp only [Function.comp]
    split <;> rfl
  constructor
  · cases ha : Appointment.findById db id with
    | none => simp [updateAppointment, ha]
    | some a => rw [updateAppointment_of_found body ha]; exact hupd _ _ _
  · rcases updateStatus_cases db user id body with ⟨hdb, _⟩ | ⟨s, b, _, _, _, _, hres⟩
    · rw [hdb]
    · rw [hres]; exact hst s

/-! ## Lemmas on reading and deleting -/

theorem mem_joined_iff {db : Db} {a : AppointmentRow} :
    a ∈ joined db ↔
      ∃ r ∈ db.rendez_vous, ∃ d ∈ db.doctors, ∃ c ∈ db.clients,
        r.id_doc = d.id_doc ∧ r.id_clt = c.id_clt ∧ a = joinRow r d c := by
  simp only [joined, List.mem_flatMap, List.mem_map, List.mem_filter, beq_iff_eq]
  constructor
  · rintro ⟨r, hr, d, ⟨hd, hrd⟩, c, ⟨hc, hrc⟩, rfl⟩
    exact ⟨r, hr, d, hd, c, hc, hrd, hrc, rfl⟩
  · rintro ⟨r, hr, d, hd, c, hc, hrd, hrc, rfl⟩
    exact ⟨r, hr, d, ⟨hd, hrd⟩, c, ⟨hc, hrc⟩, rfl⟩

theorem findById_eq_none_iff (db : Db) (id : Nat) :
    Appointment.findById db id = none ↔
      ¬ ∃ r ∈ db.rendez_vous, r.id_rdv = id ∧ (Doctor.findById db r.id_doc).isSome ∧
          (Client.findById db r.id_clt).isSome := by
  simp only [Appointment.findById, List.find?_eq_none, Doctor.findById, Client.findById,
    List.find?_isSome, beq_iff_eq]
  constructor
  · rintro h ⟨r, hr, hid, ⟨d, hd, hdr⟩, ⟨c, hc, hcr⟩⟩
    exact h (joinRow r d c) (mem_joined_iff.mpr ⟨r, hr, d, hd, c, hc, hdr.symm, hcr.symm, rfl⟩)
      (by simpa [joinRow] using hid)
  · intro h a ha hid
    obtain ⟨r, hr, d, hd, c, hc, hrd, hrc, rfl⟩ := mem_joined_iff.mp ha
    exact h ⟨r, hr, by simpa [joinRow] using hid, ⟨d, hd, hrd.symm⟩, ⟨c, hc, hrc.symm⟩⟩

theorem deleteAppointment_of_found {db : Db} {user : User} {id : Nat} {a : AppointmentRow}
    (ha : Appointment.findById db id = some a) :
    deleteAppointment db user id =
      ((Appointment.delete db id).1, ⟨200, .deleted "Appointment deleted successfully"⟩) := by
  have hpos := changes_pos_of_findById ha
  have h2 : ¬ (Appointment.delete db id).2 = 0 := by
    simpa [Appointment.delete] using hpos
  unfold deleteAppointment
  simp only [ha, notAuthorized_eq_false, Bool.false_eq_true, if_false]
  simp [h2]

theorem createAppointment_db_of_not_created {env : DateEnv} {db db' : Db} {user : User}
    {body : AppointmentBody} {res : Response}
    (h : createAppointment env db user body = .ok (db', res)) (hne : res.status ≠ 201) :
    db' = db := by
  rw [createAppointment_unfold] at h
  split at h
  · injection h with h; injection h with h1 _; exact h1.symm
  · split at h
    · injection h with h; injection h with h1 _; exact h1.symm
    · split at h
      · injection h with h; injection h with h1 _; exact h1.symm
      · split at h
        · cases h
        · split at h
          · injection h with h; injection h with h1 _; exact h1.symm
          · injection h with h
            injection h with _ h2
            rw [← h2] at hne
            exact absurd rfl hne

theorem createAppointment_eq_check_then_insert (env : DateEnv) (db : Db) (user : User)
    (body : AppointmentBody) :
    createAppointment env db user body =
      match createAppointmentCheck env db user body with
      | .error e => .error e
      | .ok (.inl res) => .ok (db, res)
      | .ok (.inr newAppointment) => .ok (createAppointmentInsert db newAppointment) := by
  unfold createAppointment createAppointmentCheck createAppointmentInsert
  simp only []
  generalize (if user.role == "client" then some user.id else body.id_clt) = q
  by_cases hg : (!truthyStr body.date || !truthyNat body.id_doc || !truthyNat q) = true
  · simp only [hg, if_true]
  · simp only [hg, if_false]
    cases Doctor.findById db (body.id_doc.getD 0) with
    | none => rfl
    | some d =>
      simp only []
      cases Client.findById db (q.getD 0) with
      | none => rfl
      | some c =>
        simp only []
        cases Appointment.findByDoctorAndDate env db (body.id_doc.getD 0)
            (strOr body.date "") with
        | error e => rfl
        | ok ex =>
          simp only []
          by_cases hex : ex.length > 0
          · simp [hex]
          · simp [hex]

/-! ## Lemmas on the available slots -/

theorem getAvailableTimeSlots_of_found {env : DateEnv} {now : Int} {db : Db} {doctorId : Nat}
    {date : Option String} {appointments : List AppointmentRow}
    (hd : (Doctor.findById db doctorId).isSome)
    (hq : Appointment.findByDoctorAndDate env db doctorId (targetDate now date) =
      .ok appointments) :
    getAvailableTimeSlots env now db doctorId date =
      .ok ⟨200, .slots doctorId (targetDate now date) (availableSlots env appointments)⟩ := by
  obtain ⟨d, hd⟩ := Option.isSome_iff_exists.mp hd
  simp only [getAvailableTimeSlots, hd, hq, availableSlots]

theorem bookedSlot_ne_of_off_grid {env : DateEnv}
    (hh : ∀ d h, env.getHours d = some h → h < 24)
    (hm : ∀ d m, env.getMinutes d = some m → m < 60)
    {a : AppointmentRow} (hoff : ∀ cell ∈ businessHours, timeLabel env a ≠ some cell)
    {cell : String} (hcell : cell ∈ businessHours) : ¬ bookedSlot env a = cell := by
  intro heq
  have h := bookedSlot_beq_cell hh hm a hcell
  have h1 : (bookedSlot env a == cell) = true := by simp [heq]
  rw [h1] at h
  have := hoff cell hcell
  simp at h
  exact this h

/-! ## Listing appointments -/

/-- C21 (the code departs from the claim): the guard of
`getDoctorAppointments` only stops a principal of role doctor, and the guard
of `getClientAppointments` only one of role client.  So no client is ever
answered 403 by `getDoctorAppointments` and no doctor by
`getClientAppointments`: client 4 lists the appointments of doctor 1 and
doctor 3 lists those of client 2, each with a 200, while doctor 3 asking for
doctor 1 and client 4 asking for client 2 do get the 403. -/
theorem listing_is_not_self_only :
    (∀ (db : Db) (user : User) (id : Nat), user.role = "client" →
      (getDoctorAppointments db user id).status ≠ 403) ∧
    (∀ (db : Db) (user : User) (id : Nat), user.role = "doctor" →
      (getClientAppointments db user id).status ≠ 403) ∧
    getDoctorAppointments (dbOne "pending" "2024-03-10T13:00:00Z") ⟨4, "client"⟩ 1 =
      ⟨200, .appointments [rowOne "pending" "2024-03-10T13:00:00Z"]⟩ ∧
    getClientAppointments (dbOne "pending" "2024-03-10T13:00:00Z") ⟨3, "doctor"⟩ 2 =
      ⟨200, .appointments [rowOne "pending" "2024-03-10T13:00:00Z"]⟩ ∧
    getDoctorAppointments (dbOne "pending" "2024-03-10T13:00:00Z") ⟨3, "doctor"⟩ 1 =
      ⟨403, .message "Not authorized to view these appointments"⟩ ∧
    getClientAppointments (dbOne "pending" "2024-03-10T13:00:00Z") ⟨4, "client"⟩ 2 =
      ⟨403, .message "Not authorized to view these appointments"⟩ := by
  refine ⟨?_, ?_, by decide, by decide, by decide, by decide⟩
  · intro db user id hrole
    have hd : ¬ user.role = "doctor" := by rw [hrole]; decide
    unfold getDoctorAppointments
    cases Doctor.findById db id with
    | none => simp
    | some d => simp [hd]
  · intro db user id hrole
    have hc : ¬ user.role = "client" := by rw [hrole]; decide
    unfold getClientAppointments
    cases Client.findById db id with
    | none => simp
    | some c => simp [hc]

/-! ## Reading one appointment -/

/-- C22 (counterexample): doctor 1 deletes their own account, which leaves
appointment 1 in `rendez_vous`; its client, client 2, then asks for
appointment 1 and is answered 404 although the record is in the store. -/
theorem getAppointmentById_orphan_counterexample :
    deleteDoctor (dbOne "pending" "2024-03-10T13:00:00Z") ⟨1, "doctor"⟩ 1 =
      ({ dbOne "pending" "2024-03-10T13:00:00Z" with doctors := [doctor3] },
        ⟨200, .deleted "Doctor deleted successfully"⟩) ∧
    (∃ r ∈ (deleteDoctor (dbOne "pending" "2024-03-10T13:00:00Z")
        ⟨1, "doctor"⟩ 1).1.rendez_vous, r.id_rdv = 1 ∧ r.id_clt = 2) ∧
    getAppointmentById
        (deleteDoctor (dbOne "pending" "2024-03-10T13:00:00Z") ⟨1, "doctor"⟩ 1).1
        ⟨2, "client"⟩ 1 =
      ((deleteDoctor (dbOne "pending" "2024-03-10T13:00:00Z") ⟨1, "doctor"⟩ 1).1,
        ⟨404, .message "Appointment not found"⟩) := by
  decide

/-- C22 (amended): `getAppointmentById` responds 404 exactly when the store
holds no appointment record with the requested id whose doctor and client
both still exist in their tables.  When `findById` returns a row and the
principal is its doctor or its client, the response is 200 with that row,
which carries the fields of a stored record with the requested id. -/
theorem getAppointmentById_not_found_iff (db : Db) (user : User) (id : Nat) :
    ((getAppointmentById db user id).2.status = 404 ↔
      ¬ ∃ r ∈ db.rendez_vous, r.id_rdv = id ∧ (Doctor.findById db r.id_doc).isSome ∧
          (Client.findById db r.id_clt).isSome) ∧
    (∀ a, Appointment.findById db id = some a → isDoctorOf user a ∨ isClientOf user a →
      getAppointmentById db user id = (db, ⟨200, .appointment a⟩) ∧
      ∃ r ∈ db.rendez_vous, r.id_rdv = id ∧ a.id_rdv = r.id_rdv ∧ a.status = r.status ∧
        a.date = r.date ∧ a.description_rdv = r.description_rdv ∧ a.id_doc = r.id_doc ∧
        a.id_clt = r.id_clt) := by
  constructor
  · rw [← findById_eq_none_iff]
    unfold getAppointmentById
    cases h : Appointment.findById db id with
    | none => simp
    | some a =>
      simp only [reduceCtorEq, iff_false]
      split <;> simp
  · intro a ha hp
    constructor
    · have hna : notAuthorized user a = false := by
        unfold notAuthorized isDoctorOf isClientOf at *
        rcases hp with ⟨h1, h2⟩ | ⟨h1, h2⟩
        · simp [h1, h2]
        · simp [h1, h2]
      simp [getAppointmentById, ha, hna]
    · have hmem := List.mem_of_find?_eq_some ha
      have hid := List.find?_some ha
      obtain ⟨r, hr, d, _, c, _, _, _, rfl⟩ := mem_joined_iff.mp hmem
      exact ⟨r, hr, by simpa [joinRow] using hid, rfl, rfl, rfl, rfl, rfl, rfl⟩

theorem getAppointmentById_not_found_iff_witness :
    Appointment.findById (dbOne "pending" "2024-03-10T13:00:00Z") 1 =
      some (rowOne "pending" "2024-03-10T13:00:00Z") ∧
    isClientOf ⟨2, "client"⟩ (rowOne "pending" "2024-03-10T13:00:00Z") ∧
    getAppointmentById (dbOne "pending" "2024-03-10T13:00:00Z") ⟨2, "client"⟩ 1 =
      (dbOne "pending" "2024-03-10T13:00:00Z",
        ⟨200, .appointment (rowOne "pending" "2024-03-10T13:00:00Z")⟩) :=
  ⟨by decide, by decide,
    ((getAppointmentById_not_found_iff (dbOne "pending" "2024-03-10T13:00:00Z")
      ⟨2, "client"⟩ 1).2 (rowOne "pending" "2024-03-10T13:00:00Z") (by decide)
      (Or.inr (by decide))).1⟩

/-! ## Failed requests -/

theorem createAppointmentE_noErrors (env : DateEnv) (db : Db) (user : User)
    (body : AppointmentBody) :
    createAppointmentE env noErrors db user body = createAppointment env db user body := by
  rfl

theorem updateAppointmentE_noErrors (db : Db) (user : User) (id : Nat)
    (body : AppointmentBody) :
    updateAppointmentE noErrors db user id body = updateAppointment db user id body := by
  rfl

theorem updateStatusE_noErrors (db : Db) (user : User) (id : Nat) (body : AppointmentBody) :
    updateStatusE noErrors db user id body = updateStatus db user id body := by
  rfl

theorem deleteAppointmentE_noErrors (db : Db) (user : User) (id : Nat) :
    deleteAppointmentE noErrors db user id = deleteAppointment db user id := by
  rfl

theorem createAppointmentE_failed {env : DateEnv} {errs : StoreErrors} {db db' : Db}
    {user : User} {body : AppointmentBody} {res : Response}
    (h : createAppointmentE env errs db user body = .ok (db', res))
    (hne : res.status ≠ 201) :
    db' = db ∨
    (errs 0 = none ∧ errs 1 = none ∧ errs 2 = none ∧ errs 3 = none ∧
      ∃ e, errs 4 = some e ∧ res = ⟨500, .message e⟩) := by
  have keep : ∀ {r : Response},
      (Except.ok (db, r) : Except String (Db × Response)) = .ok (db', res) → db' = db := by
    intro r heq
    injection heq with heq
    injection heq with h1 _
    exact h1.symm
  unfold createAppointmentE at h
  simp only [] at h
  generalize (if user.role == "client" then some user.id else body.id_clt) = q at h
  by_cases hg : (!truthyStr body.date || !truthyNat body.id_doc || !truthyNat q) = true
  · simp only [hg, if_true] at h
    exact Or.inl (keep h)
  · simp only [hg] at h
    cases h0 : errs 0 with
    | some e => simp only [h0] at h; exact Or.inl (keep h)
    | none =>
      simp only [h0] at h
      cases hD : Doctor.findById db (body.id_doc.getD 0) with
      | none => simp only [hD] at h; exact Or.inl (keep h)
      | some d =>
        simp only [hD] at h
        cases h1 : errs 1 with
        | some e => simp only [h1] at h; exact Or.inl (keep h)
        | none =>
          simp only [h1] at h
          cases hC : Client.findById db (q.getD 0) with
          | none => simp only [hC] at h; exact Or.inl (keep h)
          | some c =>
            simp only [hC] at h
            cases hQ : Appointment.findByDoctorAndDate env db (body.id_doc.getD 0)
                (strOr body.date "") with
            | error e => simp only [hQ] at h; cases h
            | ok ex =>
              simp only [hQ] at h
              cases h2 : errs 2 with
              | some e => simp only [h2] at h; exact Or.inl (keep h)
              | none =>
                simp only [h2] at h
                by_cases hex : ex.length > 0
                · simp only [hex, if_true] at h
                  exact Or.inl (keep h)
                · simp only [hex, if_false] at h
                  cases h3 : errs 3 with
                  | some e => simp only [h3] at h; exact Or.inl (keep h)
                  | none =>
                    simp only [h3] at h
                    cases h4 : errs 4 with
                    | some e =>
                      simp only [h4] at h
                      injection h with h
                      injection h with _ hres
                      exact Or.inr ⟨rfl, rfl, rfl, rfl, e, rfl, hres.symm⟩
                    | none =>
                      simp only [h4] at h
                      injection h with h
                      injection h with _ hres
                      rw [← hres] at hne
                      exact absurd rfl hne

theorem updateAppointmentE_failed {errs : StoreErrors} {db : Db} {user : User} {id : Nat}
    {body : AppointmentBody} (hne : (updateAppointmentE errs db user id body).2.status ≠ 200) :
    (updateAppointmentE errs db user id body).1 = db := by
  unfold updateAppointmentE at hne ⊢
  cases h0 : errs 0 with
  | some e => rfl
  | none =>
    simp only [h0] at hne ⊢
    cases ha : Appointment.findById db id with
    | none => rfl
    | some a =>
      simp only [ha, notAuthorized_eq_false, Bool.false_eq_true, if_false] at hne ⊢
      cases h1 : errs 1 with
      | some e => rfl
      | none =>
        simp only [h1] at hne ⊢
        have hpos := changes_pos_of_findById ha
        have h2 : ¬ (Appointment.update db id (strOr body.status a.status)
            (strOr body.date a.date)
            (strOrOpt body.description_rdv a.description_rdv)).2 = 0 := by
          simpa [Appointment.update] using hpos
        simp [h2] at hne

theorem updateStatusE_failed {errs : StoreErrors} {db : Db} {user : User} {id : Nat}
    {body : AppointmentBody} (hne : (updateStatusE errs db user id body).2.status ≠ 200) :
    (updateStatusE errs db user id body).1 = db := by
  unfold updateStatusE at hne ⊢
  by_cases hg : (!truthyStr body.status) = true
  · simp only [hg, if_true]
  · simp only [hg, Bool.false_eq_true, if_false] at hne ⊢
    by_cases hv : (!validStatuses.contains (strOr body.status "")) = true
    · simp only [hv, if_true]
    · simp only [hv, Bool.false_eq_true, if_false] at hne ⊢
      cases h0 : errs 0 with
      | some e => rfl
      | none =>
        simp only [h0] at hne ⊢
        cases ha : Appointment.findById db id with
        | none => rfl
        | some a =>
          simp only [ha] at hne ⊢
          by_cases hna : statusNotAuthorized user a (strOr body.status "") = true
          · simp only [hna, if_true]
          · simp only [hna, Bool.false_eq_true, if_false] at hne ⊢
            cases h1 : errs 1 with
            | some e => rfl
            | none =>
              simp only [h1] at hne ⊢
              have hpos := changes_pos_of_findById ha
              have h2 : ¬ (Appointment.updateStatus db id (strOr body.status "")).2 = 0 := by
                simpa [Appointment.updateStatus] using hpos
              simp [h2] at hne

theorem deleteAppointmentE_failed {errs : StoreErrors} {db : Db} {user : User} {id : Nat}
    (hne : (deleteAppointmentE errs db user id).2.status ≠ 200) :
    (deleteAppointmentE errs db user id).1 = db := by
  unfold deleteAppointmentE at hne ⊢
  cases h0 : errs 0 with
  | some e => rfl
  | none =>
    simp only [h0] at hne ⊢
    cases ha : Appointment.findById db id with
    | none => rfl
    | some a =>
      simp only [ha, notAuthorized_eq_false, Bool.false_eq_true, if_false] at hne ⊢
      cases h1 : errs 1 with
      | some e => rfl
      | none =>
        simp only [h1] at hne ⊢
        have hpos := changes_pos_of_findById ha
        have h2 : ¬ (Appointment.delete db id).2 = 0 := by
          simpa [Appointment.delete] using hpos
        simp [h2] at hne

/-- C23 (counterexample): client 2 books doctor 1 on a free slot, the INSERT
is carried out, and the read-back of the new record fails.  The request is
answered 500 and the store holds the new appointment. -/
theorem createAppointment_read_back_error_counterexample :
    createAppointmentE utc readBackFails dbNoAppointments ⟨2, "client"⟩
        (bookingBody 1 "2024-03-10T13:00:00Z") =
      .ok (dbOne "pending" "2024-03-10T13:00:00Z",
        ⟨500, .message "SQLITE_BUSY: database is locked"⟩) ∧
    dbNoAppointments.rendez_vous = [] ∧
    (dbOne "pending" "2024-03-10T13:00:00Z").rendez_vous =
      [{ id_rdv := 1, status := "pending", date := "2024-03-10T13:00:00Z",
         description_rdv := some "checkup", id_doc := 1, id_clt := 2 }] ∧
    (dbOne "pending" "2024-03-10T13:00:00Z").rendez_vous ≠ dbNoAppointments.rendez_vous := by
  refine ⟨rfl, rfl, rfl, by decide⟩

/-- C23 (amended): under every pattern of store errors, a request answered
400, 403, 404 or 500 leaves the database as it was, for `updateAppointment`,
`updateStatus` and `deleteAppointment` always, and for `createAppointment`
unless every database call before the read-back of the inserted record
succeeded and that read-back failed, which is the one 500 this statement says
nothing about.  The handlers with the store's errors are the handlers of this
file when no error occurs. -/
theorem failed_request_changes_nothing_before_read_back (env : DateEnv)
    (errs : StoreErrors) (db : Db) (user : User) (id : Nat) (body : AppointmentBody) :
    (∀ db' res, createAppointmentE env errs db user body = .ok (db', res) →
      res.status ∈ [400, 403, 404, 500] →
        db' = db ∨
        (errs 0 = none ∧ errs 1 = none ∧ errs 2 = none ∧ errs 3 = none ∧
          ∃ e, errs 4 = some e ∧ res = ⟨500, .message e⟩)) ∧
    ((updateAppointmentE errs db user id body).2.status ∈ [400, 403, 404, 500] →
      (updateAppointmentE errs db user id body).1 = db) ∧
    ((updateStatusE errs db user id body).2.status ∈ [400, 403, 404, 500] →
      (updateStatusE errs db user id body).1 = db) ∧
    ((deleteAppointmentE errs db user id).2.status ∈ [400, 403, 404, 500] →
      (deleteAppointmentE errs db user id).1 = db) ∧
    createAppointmentE env noErrors db user body = createAppointment env db user body ∧
    updateAppointmentE noErrors db user id body = updateAppointment db user id body ∧
    updateStatusE noErrors db user id body = updateStatus db user id body ∧
    deleteAppointmentE noErrors db user id = deleteAppointment db user id := by
  refine ⟨?_, ?_, ?_, ?_, createAppointmentE_noErrors env db user body,
    updateAppointmentE_noErrors db user id body, updateStatusE_noErrors db user id body,
    deleteAppointmentE_noErrors db user id⟩
  · intro db' res h hst
    apply createAppointmentE_failed h
    intro h201
    rw [h201] at hst
    simp at hst
  · intro hst
    apply updateAppointmentE_failed
    intro h200
    rw [h200] at hst
    simp at hst
  · intro hst
    apply updateStatusE_failed
    intro h200
    rw [h200] at hst
    simp at hst
  · intro hst
    apply deleteAppointmentE_failed
    intro h200
    rw [h200] at hst
    simp at hst

theorem failed_request_changes_nothing_before_read_back_witness :
    (updateStatusE (fun n => if n == 1 then some "SQLITE_IOERR: disk I/O error" else none)
      (dbOne "pending" "2024-03-10T13:00:00Z") ⟨1, "doctor"⟩ 1
      (statusBody "confirmed")).2 = ⟨500, .message "SQLITE_IOERR: disk I/O error"⟩ ∧
    (updateStatusE (fun n => if n == 1 then some "SQLITE_IOERR: disk I/O error" else none)
      (dbOne "pending" "2024-03-10T13:00:00Z") ⟨1, "doctor"⟩ 1
      (statusBody "confirmed")).1 = dbOne "pending" "2024-03-10T13:00:00Z" :=
  ⟨by decide,
    (failed_request_changes_nothing_before_read_back utc
      (fun n => if n == 1 then some "SQLITE_IOERR: disk I/O error" else none)
      (dbOne "pending" "2024-03-10T13:00:00Z") ⟨1, "doctor"⟩ 1
      (statusBody "confirmed")).2.2.1 (by decide)⟩

/-! ## The end-to-end scenario -/

/-- C24: on a server in UTC, with doctor 1 and client 2 in an otherwise empty
store: the create at `2024-03-10T13:00:00Z` is answered 201 with a pending
record; the same create again is answered 400 `This time slot is already
booked`; doctor 1 confirms (200); client 2 asking for `confirmed` is refused
(403); doctor 1 completes (200); and the available slots of doctor 1 on
`2024-03-10` are the grid without `13:00`, the other 16 cells. -/
theorem end_to_end_scenario :
    createAppointment utc dbPair ⟨2, "client"⟩ scenarioBody =
      .ok (dbPairOne "pending",
        ⟨201, .created "Appointment created successfully"
          (some (rowOne "pending" "2024-03-10T13:00:00Z"))⟩) ∧
    createAppointment utc (dbPairOne "pending") ⟨2, "client"⟩ scenarioBody =
      .ok (dbPairOne "pending", ⟨400, .message "This time slot is already booked"⟩) ∧
    updateStatus (dbPairOne "pending") ⟨1, "doctor"⟩ 1 (statusBody "confirmed") =
      (dbPairOne "confirmed",
        ⟨200, .statusUpdated "Appointment status updated successfully" 1 "confirmed"⟩) ∧
    updateStatus (dbPairOne "confirmed") ⟨2, "client"⟩ 1 (statusBody "confirmed") =
      (dbPairOne "confirmed",
        ⟨403, .message "Not authorized to update this appointment status"⟩) ∧
    updateStatus (dbPairOne "confirmed") ⟨1, "doctor"⟩ 1 (statusBody "completed") =
      (dbPairOne "completed",
        ⟨200, .statusUpdated "Appointment status updated successfully" 1 "completed"⟩) ∧
    (∀ now, getAvailableTimeSlots utc now (dbPairOne "completed") 1 (some "2024-03-10") =
      .ok ⟨200, .slots 1 "2024-03-10"
        ["09:00", "09:30", "10:00", "10:30", "11:00", "11:30", "12:00", "12:30",
         "13:30", "14:00", "14:30", "15:00", "15:30", "16:00", "16:30", "17:00"]⟩) := by
  refine ⟨rfl, rfl, by decide, by decide, by decide, fun _ => rfl⟩

/-! ## Two requests for one slot -/

/-- C25 (counterexample): on a server in UTC, with the slot of doctor 1 at
`2024-03-10T13:00:00Z` free, clients 2 and 4 send the same booking.  Both
conflict queries run on the database without appointments and find nothing;
then both inserts run.  Both requests are answered 201 and the store holds two
pending appointments of doctor 1 at that date. -/
theorem concurrent_creates_both_succeed :
    Appointment.findByDoctorAndDate utc dbNoAppointments 1 "2024-03-10T13:00:00Z" = .ok [] ∧
    createAppointmentCheck utc dbNoAppointments ⟨2, "client"⟩
        (bookingBody 1 "2024-03-10T13:00:00Z") =
      .ok (.inr { status := "pending", date := "2024-03-10T13:00:00Z",
                  description_rdv := some "checkup", id_doc := 1, id_clt := 2 }) ∧
    createAppointmentCheck utc dbNoAppointments ⟨4, "client"⟩
        (bookingBody 1 "2024-03-10T13:00:00Z") =
      .ok (.inr { status := "pending", date := "2024-03-10T13:00:00Z",
                  description_rdv := some "checkup", id_doc := 1, id_clt := 4 }) ∧
    (createAppointmentInsert dbNoAppointments
        { status := "pending", date := "2024-03-10T13:00:00Z",
          description_rdv := some "checkup", id_doc := 1, id_clt := 2 }).1 =
      dbOne "pending" "2024-03-10T13:00:00Z" ∧
    (createAppointmentInsert dbNoAppointments
        { status := "pending", date := "2024-03-10T13:00:00Z",
          description_rdv := some "checkup", id_doc := 1, id_clt := 2 }).2.status = 201 ∧
    (createAppointmentInsert (dbOne "pending" "2024-03-10T13:00:00Z")
        { status := "pending", date := "2024-03-10T13:00:00Z",
          description_rdv := some "checkup", id_doc := 1, id_clt := 4 }).2.status = 201 ∧
    (createAppointmentInsert (dbOne "pending" "2024-03-10T13:00:00Z")
        { status := "pending", date := "2024-03-10T13:00:00Z",
          description_rdv := some "checkup", id_doc := 1, id_clt := 4 }).1.rendez_vous =
      [{ id_rdv := 1, status := "pending", date := "2024-03-10T13:00:00Z",
         description_rdv := some "checkup", id_doc := 1, id_clt := 2 },
       { id_rdv := 2, status := "pending", date := "2024-03-10T13:00:00Z",
         description_rdv := some "checkup", id_doc := 1, id_clt := 4 }] ∧
    ¬ NoDoubleBooking
      (createAppointmentInsert (dbOne "pending" "2024-03-10T13:00:00Z")
        { status := "pending", date := "2024-03-10T13:00:00Z",
          description_rdv := some "checkup", id_doc := 1, id_clt := 4 }).1 := by
  refine ⟨rfl, rfl, rfl, by decide, by decide, by decide, by decide, by decide⟩

/-- C25 (amended): when two `createAppointment` requests for the same doctor
and the same date are served one after the other, the conflict query of the
second running after the insert of the first, and the date text lies within
the ISO bounds of its own day, at most one succeeds: if the first is answered
201 the second is not.  The handler is the conflict query followed by the
insert, two database calls with nothing that makes them one atomic unit. -/
theorem sequential_creates_at_most_one_succeeds (env : DateEnv) (db db₁ : Db)
    (user₁ user₂ : User) (body₁ body₂ : AppointmentBody) (res₁ : Response)
    (date lo hi : String)
    (h₁ : createAppointment env db user₁ body₁ = .ok (db₁, res₁))
    (h201 : res₁.status = 201)
    (hdate₁ : body₁.date = some date) (hdate₂ : body₂.date = some date)
    (hdoc : body₂.id_doc = body₁.id_doc)
    (hlo : toISOString (env.setHours (env.parse date) 0 0 0 0) = .ok lo)
    (hhi : toISOString (env.setHours (env.parse date) 23 59 59 999) = .ok hi)
    (hin : textBetween date lo hi = true) :
    (∀ db₂ res₂, createAppointment env db₁ user₂ body₂ = .ok (db₂, res₂) →
      res₂.status ≠ 201) ∧
    (∀ user body, createAppointment env db user body =
      match createAppointmentCheck env db user body with
      | .error e => .error e
      | .ok (.inl res) => .ok (db, res)
      | .ok (.inr newAppointment) => .ok (createAppointmentInsert db newAppointment)) := by
  refine ⟨?_, fun user body => createAppointment_eq_check_then_insert env db user body⟩
  intro db₂ res₂ h₂ h₂01
  obtain ⟨d1, id1, c1, doc1, clt1, hd1, _, hdoc1, _, _, _, hfd1, hfc1, hdb1, _⟩ :=
    createAppointment_created_inv h₁ h201
  obtain ⟨d2, id2, c2, doc2, clt2, hd2, hd2ne, hdoc2, hdoc20, hclt2, hclt20, hfd2, hfc2, _,
    hres2⟩ := createAppointment_created_inv h₂ h₂01
  have e1 : d1 = date := by rw [hdate₁] at hd1; exact (Option.some.inj hd1).symm
  have e2 : d2 = date := by rw [hdate₂] at hd2; exact (Option.some.inj hd2).symm
  have e3 : id2 = id1 := by
    rw [hdoc, hdoc1] at hdoc2; exact (Option.some.inj hdoc2).symm
  subst e1 e2 e3
  have hmem : joinRow (newRecord db d2 body₁.description_rdv id2 c1) doc1 clt1 ∈ joined db₁ := by
    have hfind : Appointment.findById db₁ (Appointment.lastID db) =
        some (joinRow (newRecord db d2 body₁.description_rdv id2 c1) doc1 clt1) := by
      have r1 := create_result d2 body₁.description_rdv hfd1 hfc1
      have r2 := create_rendez_vous db d2 body₁.description_rdv id2 c1
      rw [hdb1, ← r2, ← r1]
      rfl
    exact List.mem_of_find?_eq_some hfind
  have hval : createAppointment env db₁ user₂ body₂ = _ :=
    createAppointment_of_valid hd2 hd2ne hdoc2 hdoc20 hclt2 hclt20 hfd2 hfc2 hlo hhi
  have hpos : ((joined db₁).filter fun a =>
      a.id_doc == id2 && textBetween a.date lo hi).length > 0 := by
    apply List.length_pos_of_mem (a := joinRow (newRecord db d2 body₁.description_rdv id2 c1)
      doc1 clt1)
    simp only [List.mem_filter]
    exact ⟨hmem, by simp [joinRow, newRecord, hin]⟩
  rw [hval, if_pos hpos] at h₂
  injection h₂ with h₂
  injection h₂ with _ hres
  rw [← hres] at h₂01
  simp at h₂01

theorem sequential_creates_at_most_one_succeeds_witness :
    createAppointment utc dbNoAppointments ⟨2, "client"⟩
        (bookingBody 1 "2024-03-10T13:00:00Z") =
      .ok (dbOne "pending" "2024-03-10T13:00:00Z",
        ⟨201, .created "Appointment created successfully"
          (some (rowOne "pending" "2024-03-10T13:00:00Z"))⟩) ∧
    textBetween "2024-03-10T13:00:00Z" "2024-03-10T00:00:00.000Z"
      "2024-03-10T23:59:59.999Z" = true ∧
    (∀ db₂ res₂, createAppointment utc (dbOne "pending" "2024-03-10T13:00:00Z") ⟨4, "client"⟩
        (bookingBody 1 "2024-03-10T13:00:00Z") = .ok (db₂, res₂) → res₂.status ≠ 201) :=
  ⟨rfl, by decide,
    (sequential_creates_at_most_one_succeeds utc dbNoAppointments
      (dbOne "pending" "2024-03-10T13:00:00Z") ⟨2, "client"⟩ ⟨4, "client"⟩
      (bookingBody 1 "2024-03-10T13:00:00Z") (bookingBody 1 "2024-03-10T13:00:00Z")
      ⟨201, .created "Appointment created successfully"
        (some (rowOne "pending" "2024-03-10T13:00:00Z"))⟩
      "2024-03-10T13:00:00Z" "2024-03-10T00:00:00.000Z" "2024-03-10T23:59:59.999Z"
      rfl rfl rfl rfl rfl rfl rfl (by decide)).1⟩

/-! ## Listing every appointment -/

/-- C26 (the code departs from the claim): `getAllAppointments` looks at no
role; every principal that passed `auth` is answered 200 with every
appointment of the join.  Client 4, who has no appointment, receives the
appointment of doctor 1 and client 2. -/
theorem getAllAppointments_is_open_to_every_principal :
    (∀ (db : Db) (user : User),
      getAllAppointments db user = ⟨200, .appointments (joined db)⟩) ∧
    getAllAppointments (dbOne "pending" "2024-03-10T13:00:00Z") ⟨4, "client"⟩ =
      ⟨200, .appointments [rowOne "pending" "2024-03-10T13:00:00Z"]⟩ ∧
    getAllAppointments (dbOne "pending" "2024-03-10T13:00:00Z") ⟨3, "doctor"⟩ =
      ⟨200, .appointments [rowOne "pending" "2024-03-10T13:00:00Z"]⟩ := by
  refine ⟨fun _ _ => rfl, by decide, by decide⟩

/-! ## Changing a doctor -/

/-- C27 (the code departs from the claim): the guard of `updateDoctor` and
`deleteDoctor` only stops a principal of role doctor with another id.  Doctor
3 is answered 403 on doctor 1 and nothing changes, but client 4 renames doctor
1 and client 2 deletes doctor 1, each with a 200. -/
theorem client_may_update_and_delete_a_doctor :
    updateDoctor dbNoAppointments ⟨3, "doctor"⟩ 1 (nameBody "Dr. Nobody") =
      (dbNoAppointments, ⟨403, .message "Not authorized to update this doctor"⟩) ∧
    deleteDoctor dbNoAppointments ⟨3, "doctor"⟩ 1 =
      (dbNoAppointments, ⟨403, .message "Not authorized to delete this doctor"⟩) ∧
    updateDoctor dbNoAppointments ⟨4, "client"⟩ 1 (nameBody "Dr. Nobody") =
      ({ dbNoAppointments with doctors := [{ doctor1 with nom := "Dr. Nobody" }, doctor3] },
        ⟨200, .doctorUpdated "Doctor updated successfully" 1 "Dr. Nobody" (some "Casablanca")
          "othmane@example.com" none none (some "Heart Specialist")⟩) ∧
    deleteDoctor dbNoAppointments ⟨2, "client"⟩ 1 =
      ({ dbNoAppointments with doctors := [doctor3] },
        ⟨200, .deleted "Doctor deleted successfully"⟩) := by
  decide

/-! ## Deleting and booking for oneself -/

/-- C28: when `deleteAppointment` for id `i` is answered 200, the table
afterwards is the table before without the records of id `i`: it holds no
record with id `i`, every record with another id is still there, unchanged
and in the same order, doctors and clients are untouched, and
`getAppointmentById` for `i` is then answered 404 for every principal. -/
theorem deleteAppointment_removes_the_record (db : Db) (user : User) (i : Nat)
    (h200 : (deleteAppointment db user i).2.status = 200) :
    (deleteAppointment db user i).1.rendez_vous =
      db.rendez_vous.filter (fun r => !(r.id_rdv == i)) ∧
    (∀ r ∈ (deleteAppointment db user i).1.rendez_vous, r.id_rdv ≠ i) ∧
    (∀ r ∈ db.rendez_vous, r.id_rdv ≠ i → r ∈ (deleteAppointment db user i).1.rendez_vous) ∧
    (deleteAppointment db user i).1.doctors = db.doctors ∧
    (deleteAppointment db user i).1.clients = db.clients ∧
    (∀ user', getAppointmentById (deleteAppointment db user i).1 user' i =
      ((deleteAppointment db user i).1, ⟨404, .message "Appointment not found"⟩)) := by
  cases ha : Appointment.findById db i with
  | none => simp [deleteAppointment, ha] at h200
  | some a =>
    rw [deleteAppointment_of_found ha]
    have hnone : Appointment.findById (Appointment.delete db i).1 i = none := by
      rw [findById_eq_none_iff]
      rintro ⟨r, hr, hid, _⟩
      simp [Appointment.delete, List.mem_filter] at hr
      exact hr.2 hid
    refine ⟨rfl, ?_, ?_, rfl, rfl, ?_⟩
    · intro r hr
      simp [Appointment.delete, List.mem_filter] at hr
      exact hr.2
    · intro r hr hne
      simp [Appointment.delete, List.mem_filter]
      exact ⟨hr, hne⟩
    · intro user'
      simp [getAppointmentById, hnone]

theorem deleteAppointment_removes_the_record_witness :
    (deleteAppointment (dbOne "pending" "2024-03-10T13:00:00Z") ⟨2, "client"⟩ 1).2.status =
      200 ∧
    (deleteAppointment (dbOne "pending" "2024-03-10T13:00:00Z") ⟨2, "client"⟩ 1).1.rendez_vous =
      (dbOne "pending" "2024-03-10T13:00:00Z").rendez_vous.filter (fun r => !(r.id_rdv == 1)) ∧
    (∀ user', getAppointmentById
        (deleteAppointment (dbOne "pending" "2024-03-10T13:00:00Z") ⟨2, "client"⟩ 1).1
        user' 1 =
      ((deleteAppointment (dbOne "pending" "2024-03-10T13:00:00Z") ⟨2, "client"⟩ 1).1,
        ⟨404, .message "Appointment not found"⟩)) :=
  ⟨by decide,
    (deleteAppointment_removes_the_record (dbOne "pending" "2024-03-10T13:00:00Z")
      ⟨2, "client"⟩ 1 (by decide)).1,
    (deleteAppointment_removes_the_record (dbOne "pending" "2024-03-10T13:00:00Z")
      ⟨2, "client"⟩ 1 (by decide)).2.2.2.2.2⟩

/-- C29: for a principal of role client the body's `id_clt` is not read.  Two
`createAppointment` requests of the same client on the same database whose
bodies differ only in `id_clt` have the same outcome, database and response;
and when the request is answered 201 the one record appended has the
principal's id as `id_clt`. -/
theorem createAppointment_client_books_for_itself (env : DateEnv) (db : Db) (user : User)
    (body : AppointmentBody) (other : Option Nat) (hrole : user.role = "client") :
    createAppointment env db user { body with id_clt := other } =
      createAppointment env db user body ∧
    (∀ db' res, createAppointment env db user body = .ok (db', res) → res.status = 201 →
      ∃ row, db'.rendez_vous = db.rendez_vous ++ [row] ∧ row.id_clt = user.id) := by
  constructor
  · rw [createAppointment_unfold, createAppointment_unfold]
    simp [requester, hrole]
  · intro db' res h h201
    obtain ⟨date, id_doc, id_clt, d, c, _, _, _, _, hclt, _, _, _, hdb, _⟩ :=
      createAppointment_created_inv h h201
    refine ⟨newRecord db date body.description_rdv id_doc id_clt, by rw [hdb], ?_⟩
    simp [requester, hrole] at hclt
    simp [newRecord, hclt]

theorem createAppointment_client_books_for_itself_witness :
    (⟨2, "client"⟩ : User).role = "client" ∧
    createAppointment utc dbNoAppointments ⟨2, "client"⟩
        { bookingBody 1 "2024-03-10T13:00:00Z" with id_clt := some 4 } =
      createAppointment utc dbNoAppointments ⟨2, "client"⟩
        (bookingBody 1 "2024-03-10T13:00:00Z") ∧
    createAppointment utc dbNoAppointments ⟨2, "client"⟩
        (bookingBody 1 "2024-03-10T13:00:00Z") =
      .ok (dbOne "pending" "2024-03-10T13:00:00Z",
        ⟨201, .created "Appointment created successfully"
          (some (rowOne "pending" "2024-03-10T13:00:00Z"))⟩) :=
  ⟨rfl,
    (createAppointment_client_books_for_itself utc dbNoAppointments ⟨2, "client"⟩
      (bookingBody 1 "2024-03-10T13:00:00Z") (some 4) rfl).1,
    rfl⟩

/-! ## Appointments off the grid -/

/-- C30: in an environment whose hours are below 24 and minutes below 60, an
appointment whose local time of day is none of the 17 grid labels removes no
cell: the slots computed from a list of appointments are the same with and
without it.  For every list the number of slots plus the number of
appointments whose time of day is a grid label is at least 17, and these
slots are what `getAvailableTimeSlots` returns for the list that the query
gives. -/
theorem availableSlots_ignores_off_grid_appointments (env : DateEnv)
    (hh : ∀ d h, env.getHours d = some h → h < 24)
    (hm : ∀ d m, env.getMinutes d = some m → m < 60) :
    (∀ (l₁ l₂ : List AppointmentRow) (a : AppointmentRow),
      (∀ cell ∈ businessHours, timeLabel env a ≠ some cell) →
        availableSlots env (l₁ ++ a :: l₂) = availableSlots env (l₁ ++ l₂)) ∧
    (∀ l : List AppointmentRow,
      17 ≤ (availableSlots env l).length +
        (l.filter fun b => businessHours.any fun cell => timeLabel env b == some cell).length) ∧
    (∀ (now : Int) (db : Db) (doctorId : Nat) (date : Option String)
        (appointments : List AppointmentRow),
      (Doctor.findById db doctorId).isSome →
      Appointment.findByDoctorAndDate env db doctorId (targetDate now date) = .ok appointments →
      getAvailableTimeSlots env now db doctorId date =
        .ok ⟨200, .slots doctorId (targetDate now date) (availableSlots env appointments)⟩) := by
  refine ⟨?_, ?_, ?_⟩
  · intro l₁ l₂ a hoff
    simp only [availableSlots]
    apply List.filter_congr
    intro cell hcell
    have hne := bookedSlot_ne_of_off_grid hh hm hoff hcell
    congr 1
    rw [Bool.eq_iff_iff]
    simp only [List.contains_iff_exists_mem_beq, List.mem_map, List.mem_append, List.mem_cons,
      beq_iff_eq]
    constructor
    · rintro ⟨s, ⟨b, hb, rfl⟩, hs⟩
      rcases hb with hb | rfl | hb
      · exact ⟨_, ⟨b, Or.inl hb, rfl⟩, hs⟩
      · exact absurd hs.symm hne
      · exact ⟨_, ⟨b, Or.inr hb, rfl⟩, hs⟩
    · rintro ⟨s, ⟨b, hb, rfl⟩, hs⟩
      rcases hb with hb | hb
      · exact ⟨_, ⟨b, Or.inl hb, rfl⟩, hs⟩
      · exact ⟨_, ⟨b, Or.inr (Or.inr hb), rfl⟩, hs⟩
  · intro l
    have hsplit := List.length_eq_length_filter_add (l := businessHours)
      (fun slot => !(l.map (bookedSlot env)).contains slot)
    have h17 : businessHours.length = 17 := rfl
    have hnodup : businessHours.Nodup := by decide
    have hsub : (businessHours.filter fun x =>
          !(fun slot => !(l.map (bookedSlot env)).contains slot) x) ⊆
        (l.filter fun b => businessHours.any fun cell => timeLabel env b == some cell).map
          (bookedSlot env) := by
      intro cell hc
      simp only [List.mem_filter, Bool.not_not, List.contains_iff_exists_mem_beq, List.mem_map,
        beq_iff_eq] at hc
      obtain ⟨hcell, s, ⟨b, hb, rfl⟩, hs⟩ := hc
      simp only [List.mem_map, List.mem_filter, List.any_eq_true]
      refine ⟨b, ⟨hb, cell, hcell, ?_⟩, hs.symm⟩
      rw [← bookedSlot_beq_cell hh hm b hcell]
      simp [hs]
    have hle := ((hnodup.filter _).subperm hsub).length_le
    rw [List.length_map] at hle
    simp only [Bool.not_not] at hsplit hle
    simp only [availableSlots]
    omega
  · intro now db doctorId date appointments hd hq
    exact getAvailableTimeSlots_of_found hd hq

theorem availableSlots_ignores_off_grid_appointments_witness :
    (∀ cell ∈ businessHours,
      timeLabel utc (rowOne "confirmed" "2024-03-10T13:10:00Z") ≠ some cell) ∧
    availableSlots utc
        ([rowOne "pending" "2024-03-10T14:00:00Z"] ++
          rowOne "confirmed" "2024-03-10T13:10:00Z" :: []) =
      availableSlots utc ([rowOne "pending" "2024-03-10T14:00:00Z"] ++ []) ∧
    17 ≤ (availableSlots utc [rowOne "pending" "2024-03-10T14:00:00Z",
            rowOne "confirmed" "2024-03-10T13:10:00Z"]).length +
      ([rowOne "pending" "2024-03-10T14:00:00Z",
          rowOne "confirmed" "2024-03-10T13:10:00Z"].filter fun b =>
        businessHours.any fun cell => timeLabel utc b == some cell).length :=
  ⟨by decide,
    (availableSlots_ignores_off_grid_appointments utc utc_getHours_lt utc_getMinutes_lt).1
      [rowOne "pending" "2024-03-10T14:00:00Z"] []
      (rowOne "confirmed" "2024-03-10T13:10:00Z") (by decide),
    (availableSlots_ignores_off_grid_appointments utc utc_getHours_lt utc_getMinutes_lt).2.1
      [rowOne "pending" "2024-03-10T14:00:00Z", rowOne "confirmed" "2024-03-10T13:10:00Z"]⟩

end HealthWire
